import Mathlib

/-! # Settings commands of clinet-discord (`cmd-settings.go`)

A shallow embedding of the three settings routers `commandSettingsBot`,
`commandSettingsUser` and `commandSettingsServer`, of the data they act on, and
of the friend-code regular expression, followed by theorems about them.

Conventions of the embedding:

* Go strings are Lean strings, `[]string` is `List String`.
* The two global maps `guildSettings` and `userSettings` (`map[string]*T`)
  are the two components of `Stores`; a key that is absent yields the nil
  pointer, and reading or writing a field through it is the run-time fault
  `Fault.nilDereference`.
* Indexing `args[i]` past the end of the slice is `Fault.indexOutOfRange`.
* A router returns `Except Fault (MessageEmbed × Stores)`: either the Go
  function faulted, or it returned an embed and left the stores in a state.
* Everything the routers reach outside this file (the global bot
  configuration, the timezone database, the clock, the Discord session, the
  Nintendo client, the `remove` slice helper) is a field of `Host`.
-/

namespace Clinet

/-! ## Data model -/

/-- Modelled from the spec: `BotOptions` is declared outside `cmd-settings.go`;
the routers never look inside it, so it is kept as an uninterpreted payload. -/
structure BotOptions where
  payload : Nat
  deriving DecidableEq, Repr

/-- Modelled from the spec: `CustomResponseQuery` is declared outside
`cmd-settings.go`; kept as an uninterpreted payload. -/
structure CustomResponseQuery where
  payload : Nat
  deriving DecidableEq, Repr

/-- Modelled from the spec: `RoleMe` is declared outside `cmd-settings.go`
(a list-item record type the spec does not elaborate); kept as a payload. -/
structure RoleMe where
  payload : Nat
  deriving DecidableEq, Repr

/-- Modelled from the spec: `Feed` is declared outside `cmd-settings.go`
(a list-item record type the spec does not elaborate); kept as a payload. -/
structure Feed where
  payload : Nat
  deriving DecidableEq, Repr

/-- Modelled from the spec: `SwearFilter` is declared outside
`cmd-settings.go`. Its fields are the ones the routers read and write:
enabled flag, blacklisted-word list, the normalization toggles, the warning
auto-delete timeout (a `time.Duration`, an integer) and the bypass flags. -/
structure SwearFilter where
  Enabled : Bool
  BlacklistedWords : List String
  DisableNormalize : Bool
  DisableSpacedTab : Bool
  DisableMultiWhitespaceStripping : Bool
  DisableZeroWidthStripping : Bool
  DisableSpacedBypass : Bool
  WarningDeleteTimeout : Int
  AllowAdminBypass : Bool
  AllowBotOwnerBypass : Bool
  deriving DecidableEq, Repr

/-- The struct `LogEvents`: sixteen flags, in declaration order. -/
structure LogEvents where
  ChannelCreate : Bool
  ChannelDelete : Bool
  ChannelUpdate : Bool
  GuildBanAdd : Bool
  GuildBanRemove : Bool
  GuildEmojisUpdate : Bool
  GuildMemberAdd : Bool
  GuildMemberRemove : Bool
  GuildRoleCreate : Bool
  GuildRoleDelete : Bool
  GuildRoleUpdate : Bool
  GuildUpdate : Bool
  UserUpdate : Bool
  VoiceStateUpdate : Bool
  SwearDetect : Bool
  UserModlog : Bool
  deriving DecidableEq, Repr

/-- The struct `LogSettings`. -/
structure LogSettings where
  LoggingEnabled : Bool
  LoggingChannel : String
  LoggingEvents : LogEvents
  deriving DecidableEq, Repr

/-- The struct `GuildSettings`. -/
structure GuildSettings where
  AllowVoice : Bool
  BotAdminRoles : List String
  BotAdminUsers : List String
  BotOptions : BotOptions
  BotPrefix : String
  CustomResponses : List CustomResponseQuery
  LogSettings : LogSettings
  SwearFilter : SwearFilter
  TipsChannel : String
  UserJoinMessage : String
  UserJoinMessageChannel : String
  UserLeaveMessage : String
  UserLeaveMessageChannel : String
  RoleMeList : List RoleMe
  AutoSendNowPlaying : Bool
  APIInviteChannel : String
  APIInviteKey : String
  Feeds : List Feed
  deriving DecidableEq, Repr

/-- The struct `Socials`; the empty string means "unset". -/
structure Socials where
  SwitchFC : String
  NNID : String
  PSN : String
  Xbox : String
  deriving DecidableEq, Repr

/-- The struct `UserSettings`; `DailyNext` (a `time.Time`) is kept as an
integer timestamp, the routers never touch it. -/
structure UserSettings where
  Balance : Int
  DailyNext : Int
  AboutMe : String
  Timezone : String
  Socials : Socials
  deriving DecidableEq, Repr

/-- The zero value `LogEvents{}`. -/
def LogEvents.zero : LogEvents :=
  { ChannelCreate := false, ChannelDelete := false, ChannelUpdate := false,
    GuildBanAdd := false, GuildBanRemove := false, GuildEmojisUpdate := false,
    GuildMemberAdd := false, GuildMemberRemove := false, GuildRoleCreate := false,
    GuildRoleDelete := false, GuildRoleUpdate := false, GuildUpdate := false,
    UserUpdate := false, VoiceStateUpdate := false, SwearDetect := false,
    UserModlog := false }

/-- The package variable `LogEventsRecommended`: thirteen fields are written
`true` in the composite literal, the three others keep the zero value. -/
def LogEventsRecommended : LogEvents :=
  { LogEvents.zero with
    ChannelCreate := true, ChannelDelete := true, GuildBanAdd := true,
    GuildBanRemove := true, GuildMemberAdd := true, GuildMemberRemove := true,
    GuildRoleCreate := true, GuildRoleDelete := true, GuildRoleUpdate := true,
    GuildUpdate := true, SwearDetect := true, UserModlog := true,
    VoiceStateUpdate := true }

/-! ## Reflection over `LogEvents` (package `structs`) -/

/-- The exported fields of `LogEvents`, as `structs.New(..).Fields()` lists
them: one per struct field. -/
inductive EventField
  | ChannelCreate | ChannelDelete | ChannelUpdate | GuildBanAdd | GuildBanRemove
  | GuildEmojisUpdate | GuildMemberAdd | GuildMemberRemove | GuildRoleCreate
  | GuildRoleDelete | GuildRoleUpdate | GuildUpdate | UserUpdate
  | VoiceStateUpdate | SwearDetect | UserModlog
  deriving DecidableEq, Repr

/-- `Fields()`: every field, in declaration order. -/
def EventField.all : List EventField :=
  [.ChannelCreate, .ChannelDelete, .ChannelUpdate, .GuildBanAdd, .GuildBanRemove,
   .GuildEmojisUpdate, .GuildMemberAdd, .GuildMemberRemove, .GuildRoleCreate,
   .GuildRoleDelete, .GuildRoleUpdate, .GuildUpdate, .UserUpdate,
   .VoiceStateUpdate, .SwearDetect, .UserModlog]

/-- `Field.Name()`: the Go field name. -/
def EventField.Name : EventField → String
  | .ChannelCreate => "ChannelCreate"
  | .ChannelDelete => "ChannelDelete"
  | .ChannelUpdate => "ChannelUpdate"
  | .GuildBanAdd => "GuildBanAdd"
  | .GuildBanRemove => "GuildBanRemove"
  | .GuildEmojisUpdate => "GuildEmojisUpdate"
  | .GuildMemberAdd => "GuildMemberAdd"
  | .GuildMemberRemove => "GuildMemberRemove"
  | .GuildRoleCreate => "GuildRoleCreate"
  | .GuildRoleDelete => "GuildRoleDelete"
  | .GuildRoleUpdate => "GuildRoleUpdate"
  | .GuildUpdate => "GuildUpdate"
  | .UserUpdate => "UserUpdate"
  | .VoiceStateUpdate => "VoiceStateUpdate"
  | .SwearDetect => "SwearDetect"
  | .UserModlog => "UserModlog"

/-- `Field.Value()`: the current value of a field. -/
def EventField.Value (f : EventField) (e : LogEvents) : Bool :=
  match f with
  | .ChannelCreate => e.ChannelCreate
  | .ChannelDelete => e.ChannelDelete
  | .ChannelUpdate => e.ChannelUpdate
  | .GuildBanAdd => e.GuildBanAdd
  | .GuildBanRemove => e.GuildBanRemove
  | .GuildEmojisUpdate => e.GuildEmojisUpdate
  | .GuildMemberAdd => e.GuildMemberAdd
  | .GuildMemberRemove => e.GuildMemberRemove
  | .GuildRoleCreate => e.GuildRoleCreate
  | .GuildRoleDelete => e.GuildRoleDelete
  | .GuildRoleUpdate => e.GuildRoleUpdate
  | .GuildUpdate => e.GuildUpdate
  | .UserUpdate => e.UserUpdate
  | .VoiceStateUpdate => e.VoiceStateUpdate
  | .SwearDetect => e.SwearDetect
  | .UserModlog => e.UserModlog

/-- The store that `Field.Set(v)` performs once its checks have passed: the
field takes the value `v`. -/
def EventField.Set (f : EventField) (v : Bool) (e : LogEvents) : LogEvents :=
  match f with
  | .ChannelCreate => { e with ChannelCreate := v }
  | .ChannelDelete => { e with ChannelDelete := v }
  | .ChannelUpdate => { e with ChannelUpdate := v }
  | .GuildBanAdd => { e with GuildBanAdd := v }
  | .GuildBanRemove => { e with GuildBanRemove := v }
  | .GuildEmojisUpdate => { e with GuildEmojisUpdate := v }
  | .GuildMemberAdd => { e with GuildMemberAdd := v }
  | .GuildMemberRemove => { e with GuildMemberRemove := v }
  | .GuildRoleCreate => { e with GuildRoleCreate := v }
  | .GuildRoleDelete => { e with GuildRoleDelete := v }
  | .GuildRoleUpdate => { e with GuildRoleUpdate := v }
  | .GuildUpdate => { e with GuildUpdate := v }
  | .UserUpdate => { e with UserUpdate := v }
  | .VoiceStateUpdate => { e with VoiceStateUpdate := v }
  | .SwearDetect => { e with SwearDetect := v }
  | .UserModlog => { e with UserModlog := v }

/-- `Field.IsExported()`: a Go struct field is exported when its name starts
with an upper-case letter. -/
def EventField.IsExported (f : EventField) : Bool :=
  match f.Name.data with
  | c :: _ => c.isUpper
  | [] => false

/-- The error results of `Field.Set`. -/
inductive SetError
  | notExported
  | notSettable
  | wrongKind
  deriving DecidableEq, Repr

/-- `Field.Set(v)` together with its error result. The call refuses a field
that is not exported; its two other checks always pass here, because the
struct is reached through a pointer (the field is settable) and both the
field and `v` are of kind bool. -/
def EventField.SetChecked (f : EventField) (v : Bool) (e : LogEvents) :
    Except SetError LogEvents :=
  if f.IsExported then .ok (f.Set v e) else .error .notExported

/-- `FieldOk(name)`: the field whose Go name is exactly `name`, if any. -/
def FieldOk (name : String) : Option EventField :=
  EventField.all.find? (fun f => f.Name == name)

/-! ## The friend-code regular expression -/

/-- One element of the pattern: a literal character or the class `[0-9]`.
Every element of `regexpSwitchFC` consumes exactly one character. -/
inductive Atom
  | lit (c : Char)
  | digit
  deriving DecidableEq, Repr

/-- Whether a character is matched by a pattern element. -/
def Atom.test : Atom → Char → Bool
  | .lit c, x => x == c
  | .digit, x => decide (48 ≤ x.toNat ∧ x.toNat ≤ 57)

/-- The pattern of `regexpSwitchFC`, read off the source literal
`SW-[0-9]{4}-[0-9]{4}-[0-9]{4}`: the three literal characters `SW-`, then
three groups of four digits separated by a dash, with no anchor at either
end. -/
def regexpSwitchFC : List Atom :=
  [.lit 'S', .lit 'W', .lit '-', .digit, .digit, .digit, .digit,
   .lit '-', .digit, .digit, .digit, .digit,
   .lit '-', .digit, .digit, .digit, .digit]

/-- Whether the pattern matches a prefix of the input. -/
def matchHere : List Atom → List Char → Bool
  | [], _ => true
  | _ :: _, [] => false
  | a :: as, c :: cs => a.test c && matchHere as cs

/-- Go's `(*Regexp).MatchString`: whether the input contains any match of
the pattern, that is, whether the pattern matches at some position. -/
def matchAnywhere (p : List Atom) : List Char → Bool
  | [] => matchHere p []
  | c :: cs => matchHere p (c :: cs) || matchAnywhere p cs

/-- The call `regexpSwitchFC.MatchString(s)`. -/
def MatchString (s : String) : Bool :=
  matchAnywhere regexpSwitchFC s.data

/-! ## Library functions -/

/-- Value of a run of decimal digits, `none` when a character is not a digit. -/
def parseDigits : List Char → Nat → Option Nat
  | [], acc => some acc
  | c :: cs, acc =>
    if 48 ≤ c.toNat ∧ c.toNat ≤ 57 then parseDigits cs (acc * 10 + (c.toNat - 48))
    else none

/-- Go's `strconv.Atoi` on a 64-bit platform: an optional sign followed by
one or more decimal digits, whose value fits in an `int`; `none` is the error
result. -/
def Atoi (s : String) : Option Int :=
  let sign : Bool × List Char :=
    match s.data with
    | '-' :: r => (true, r)
    | '+' :: r => (false, r)
    | cs => (false, cs)
  if sign.2 = [] then none
  else
    match parseDigits sign.2 0 with
    | none => none
    | some n =>
      let v : Int := if sign.1 then -(n : Int) else (n : Int)
      if -(2 : Int) ^ 63 ≤ v ∧ v < (2 : Int) ^ 63 then some v else none

/-- Go's `strconv.Itoa`. -/
def Itoa (n : Int) : String := toString n

/-- Go's `strconv.FormatBool`. -/
def FormatBool (b : Bool) : String := if b then "true" else "false"

/-- Go's `strings.Join`. -/
def Join (elems : List String) (sep : String) : String := sep.intercalate elems

/-- The call `strings.Replace(s, "\x60", "\\\x60", -1)`: every backtick gets a
backslash in front of it. -/
def escapeBackticks (s : String) : String :=
  String.join (s.data.map fun c =>
    if c = Char.ofNat 96 then String.mk [Char.ofNat 92, Char.ofNat 96] else String.singleton c)

/-! ## Commands, responses and the request context -/

/-- The struct `CommandArgument`, as far as the help commands fill it. -/
structure CommandArgument where
  Name : String
  Description : String
  ArgType : String
  deriving DecidableEq, Repr

/-- The struct `Command`, as far as the help commands fill it. -/
structure Command where
  HelpText : String
  RequiredArguments : List String
  Arguments : List CommandArgument
  deriving DecidableEq, Repr

/-- A `discordgo.User`, as far as `aboutMe` reads it; `Avatar2048` is the
result of `AvatarURL("2048")`. -/
structure User where
  Username : String
  Discriminator : String
  Avatar2048 : String
  deriving DecidableEq, Repr

/-- A `*time.Location` returned by `tz.LoadLocation`. -/
structure Location where
  name : String
  deriving DecidableEq, Repr

/-- The struct `CommandEnvironment`, as far as the routers read it:
`env.Guild.ID`, `env.User.ID`, `env.Channel.ID`, the ids of
`env.Message.Mentions` and `env.BotPrefix`. -/
structure CommandEnvironment where
  GuildID : String
  UserID : String
  ChannelID : String
  Mentions : List String
  BotPrefix : String
  deriving DecidableEq, Repr

/-- An embed assembled with the `NewEmbed()` builder: title, description,
author (name and icon), itemized fields (name and value) and colour. -/
structure Embed where
  Title : String
  Description : String
  Author : Option (String × String)
  Fields : List (String × String)
  Color : Option Nat
  deriving DecidableEq, Repr

/-- Modelled from the spec: the response constructors `NewGenericEmbed`,
`NewErrorEmbed`, `getCustomCommandUsage` and the `NewEmbed()` builder live
outside `cmd-settings.go`. A response is "a structured value with a title, a
body, and optionally itemized name/value fields", and "error responses [are]
distinguishable from success responses by kind": each constructor keeps the
arguments it was called with.

* `generic title body` is `NewGenericEmbed(title, body)`, a success response;
* `error title body` is `NewErrorEmbed(title, body)`, an error response;
* `usage cmd name title env` is `getCustomCommandUsage(cmd, name, title, env)`,
  the usage/help response describing the arguments of `cmd`;
* `built e` is an embed assembled field by field. -/
inductive MessageEmbed
  | generic (title body : String)
  | error (title body : String)
  | usage (cmd : Command) (name title : String) (env : CommandEnvironment)
  | built (e : Embed)
  deriving DecidableEq, Repr

/-- See `MessageEmbed`. -/
def NewGenericEmbed (title body : String) : MessageEmbed := .generic title body

/-- See `MessageEmbed`. -/
def NewErrorEmbed (title body : String) : MessageEmbed := .error title body

/-- See `MessageEmbed`. -/
def getCustomCommandUsage (cmd : Command) (name title : String)
    (env : CommandEnvironment) : MessageEmbed := .usage cmd name title env

/-- Whether a response is an error response. -/
def MessageEmbed.isError : MessageEmbed → Bool
  | .error _ _ => true
  | _ => false

/-- Whether a response is a usage/help response. -/
def MessageEmbed.isUsage : MessageEmbed → Bool
  | .usage _ _ _ _ => true
  | _ => false

/-- What the routers reach outside `cmd-settings.go`.

* `CommandPrefix` is `botData.CommandPrefix`, the global default;
* `LoadLocation` is `tz.LoadLocation` (`none` is the error result);
* `NowIn loc` is `time.Now().In(loc).String()`;
* `DiscordUser` is `botData.DiscordSession.User` (`none` is the error result);
* `DoesUserExist` is `botData.BotClients.Ninty.DoesUserExist` (`none` is the
  error result, `some b` the existence answer);
* `remove` is the slice helper `remove(slice, word)`. -/
structure Host where
  CommandPrefix : String
  LoadLocation : String → Option Location
  NowIn : Location → String
  DiscordUser : String → Option User
  DoesUserExist : String → Option Bool
  remove : List String → String → List String

/-- The two global maps. A key bound to `none` is a key whose lookup yields
the nil pointer. -/
structure Stores where
  guildSettings : String → Option GuildSettings
  userSettings : String → Option UserSettings

/-- Run-time faults of the Go code. -/
inductive Fault
  | indexOutOfRange
  | nilDereference
  deriving DecidableEq, Repr

/-- What a call of a router amounts to. -/
abbrev Outcome := Except Fault (MessageEmbed × Stores)

/-- The expression `args[i]`. -/
def index (args : List String) (i : Nat) : Except Fault String :=
  match args.get? i with
  | some a => .ok a
  | none => .error .indexOutOfRange

/-- The pointer `guildSettings[id]`, dereferenced. -/
def guildAt (st : Stores) (id : String) : Except Fault GuildSettings :=
  match st.guildSettings id with
  | some g => .ok g
  | none => .error .nilDereference

/-- The pointer `userSettings[id]`, dereferenced. -/
def userAt (st : Stores) (id : String) : Except Fault UserSettings :=
  match st.userSettings id with
  | some u => .ok u
  | none => .error .nilDereference

/-- The stores after the record behind `guildSettings[id]` became `g`. -/
def setGuild (st : Stores) (id : String) (g : GuildSettings) : Stores :=
  { st with guildSettings := fun k => if k = id then some g else st.guildSettings k }

/-- The stores after the record behind `userSettings[id]` became `u`. -/
def setUser (st : Stores) (id : String) (u : UserSettings) : Stores :=
  { st with userSettings := fun k => if k = id then some u else st.userSettings k }

/-! ## `commandSettingsBot` -/

/-- The function `commandSettingsBot`. -/
def commandSettingsBot (h : Host) (args : List String) (env : CommandEnvironment)
    (st : Stores) : Outcome := do
  let a0 ← index args 0
  if a0 = "prefix" then
    if args.length > 1 then
      let a1 ← index args 1
      let g ← guildAt st env.GuildID
      let st1 :=
        if a1 = h.CommandPrefix then setGuild st env.GuildID { g with BotPrefix := "" }
        else setGuild st env.GuildID { g with BotPrefix := a1 }
      pure (NewGenericEmbed "Bot Settings - Command Prefix"
        ("Successfully set the command prefix to \x60\x60" ++ escapeBackticks a1 ++ "\x60\x60."), st1)
    else do
      let g ← guildAt st env.GuildID
      if GuildSettings.BotPrefix g ≠ "" then
        pure (NewGenericEmbed "Bot Settings - Command Prefix"
          ("Current command prefix:\n\n" ++ GuildSettings.BotPrefix g), st)
      else
        pure (NewGenericEmbed "Bot Settings - Command Prefix"
          ("Current command prefix:\n\n" ++ h.CommandPrefix), st)
  else
    pure (NewErrorEmbed "Bot Settings Error"
      ("Error finding the setting \x60\x60" ++ a0 ++ "\x60\x60."), st)

/-! ## `commandSettingsUser` -/

/-- The function `aboutMe`. -/
def aboutMe (h : Host) (st : Stores) (userID : String) : MessageEmbed :=
  match st.userSettings userID with
  | none => NewErrorEmbed "About Me - Error" ("Error finding the aboutme for <@!" ++ userID ++ ">.")
  | some settings =>
    match h.DiscordUser userID with
    | none => NewErrorEmbed "About Me - Error" ("Error finding the user <@!" ++ userID ++ ">.")
    | some user =>
      .built { Title := "", Description := "",
               Author := some (user.Username ++ "#" ++ user.Discriminator, user.Avatar2048),
               Fields := [("About Me", settings.AboutMe)],
               Color := some 0x1C1C1C }

/-- The case `"about", "aboutme", "description", "desc", "info"` of
`commandSettingsUser`. -/
def userAbout (h : Host) (args : List String) (env : CommandEnvironment)
    (st : Stores) : Outcome := do
  if args.length ≤ 1 then
    let u ← userAt st env.UserID
    if u.AboutMe = "" then
      pure (NewErrorEmbed "User Settings - About Me Error"
        "You must specify an aboutme to view it.", st)
    else
      pure (aboutMe h st env.UserID, st)
  else if args.length = 2 ∧ env.Mentions.length > 0 then
    let m ← index env.Mentions 0
    pure (aboutMe h st m, st)
  else
    let u ← userAt st env.UserID
    pure (NewGenericEmbed "User Settings - About Me" "Successfully set your about me!",
      setUser st env.UserID { u with AboutMe := Join (args.drop 1) " " })

/-- The case `"timezone", "tz"` of `commandSettingsUser`. -/
def userTimezone (h : Host) (args : List String) (env : CommandEnvironment)
    (st : Stores) : Outcome := do
  if args.length ≤ 1 then
    let u ← userAt st env.UserID
    if u.Timezone = "" then
      pure (NewErrorEmbed "User Settings - Timezone Error"
        "You must specify a timezone to view it.", st)
    else
      match h.LoadLocation u.Timezone with
      | none =>
        pure (NewErrorEmbed "User Settings - Timezone Error"
          ("You have an invalid timezone set, please set a new one first.\n\nEx: \x60\x60"
            ++ env.BotPrefix ++ "user timezone America/New_York\x60\x60"), st)
      | some location =>
        pure (NewGenericEmbed "User Settings - Timezone"
          ("Your current timezone is set to \x60\x60" ++ u.Timezone
            ++ "\x60\x60.\nYour current time is \x60\x60" ++ h.NowIn location ++ "\x60\x60."), st)
  else
    let a1 ← index args 1
    match h.LoadLocation a1 with
    | none => pure (NewErrorEmbed "User Settings - Timezone Error" "Invalid timezone.", st)
    | some location =>
      let u ← userAt st env.UserID
      pure (NewGenericEmbed "User Settings - Timezone"
        ("Successfully set your timezone to \x60\x60" ++ a1
          ++ "\x60\x60.\nYour current time is \x60\x60" ++ h.NowIn location ++ "\x60\x60."),
        setUser st env.UserID { u with Timezone := a1 })

/-- The help command `socialCommand` of the case `"social", "socials"`. -/
def socialCommand : Command :=
  { HelpText := "Manages your socials.",
    RequiredArguments := ["setting (value(s))"],
    Arguments :=
      [{ Name := "set \x7bsocial\x7d", Description := "Sets a social", ArgType := "social code/name" },
       { Name := "list", Description := "Lists your socials", ArgType := "this" },
       { Name := "remove", Description := "Removes a social", ArgType := "social code/name" },
       { Name := "available", Description := "Lists available socials", ArgType := "this" }] }

/-- The case `"set", "add"` of the socials switch. -/
def userSocialSet (h : Host) (args : List String) (env : CommandEnvironment)
    (st : Stores) : Outcome := do
  if args.length < 4 then
    pure (NewErrorEmbed "User Settings - Socials"
      "You must specify a social identifier to set it.", st)
  else
    let a2 ← index args 2
    if a2 = "switchfc" then
      let a3 ← index args 3
      if ¬ MatchString a3 then
        pure (NewErrorEmbed "User Settings - Socials" "Invalid Switch friend code.", st)
      else
        let u ← userAt st env.UserID
        if u.Socials.SwitchFC = a3 then
          pure (NewErrorEmbed "User Settings - Socials"
            "You have already set that Switch friend code.", st)
        else
          pure (NewGenericEmbed "User Settings - Socials"
            ("Successfully set your Switch friend code to \x60\x60" ++ a3 ++ "\x60\x60."),
            setUser st env.UserID { u with Socials := { u.Socials with SwitchFC := a3 } })
    else if a2 ∈ ["nintendoid", "nintyid", "nnid"] then
      let u ← userAt st env.UserID
      let a3 ← index args 3
      if u.Socials.NNID = a3 then
        pure (NewErrorEmbed "User Settings - Socials" "You have already set that NNID.", st)
      else
        match h.DoesUserExist a3 with
        | none =>
          pure (NewErrorEmbed "User Settings - Social Error"
            "There was an error checking if that NNID exists.", st)
        | some false =>
          pure (NewErrorEmbed "User Settings - Social Error" "That NNID doesn\x27t exist!", st)
        | some true =>
          pure (NewGenericEmbed "User Settings - Socials"
            ("Successfully set your NNID to \x60\x60" ++ a3 ++ "\x60\x60."),
            setUser st env.UserID { u with Socials := { u.Socials with NNID := a3 } })
    else if a2 = "psn" then
      let u ← userAt st env.UserID
      let a3 ← index args 3
      if u.Socials.PSN = a3 then
        pure (NewErrorEmbed "User Settings - Socials" "You have already set that PSN.", st)
      else
        pure (NewGenericEmbed "User Settings - Socials"
          ("Successfully set your PSN to \x60\x60" ++ a3 ++ "\x60\x60."),
          setUser st env.UserID { u with Socials := { u.Socials with PSN := a3 } })
    else if a2 ∈ ["xbox", "gamertag"] then
      let u ← userAt st env.UserID
      let a3 ← index args 3
      if u.Socials.Xbox = a3 then
        pure (NewErrorEmbed "User Settings - Socials"
          "You have already set that Xbox Live gamertag.", st)
      else
        pure (NewGenericEmbed "User Settings - Socials"
          ("Successfully set your Xbox Live gamertag to \x60\x60" ++ a3 ++ "\x60\x60."),
          setUser st env.UserID { u with Socials := { u.Socials with Xbox := a3 } })
    else
      pure (NewErrorEmbed "User Settings - Socials Error"
        ("Unknown social " ++ a2 ++ "\x60\x60."), st)

/-- The case `"list"` of the socials switch. -/
def userSocialList (env : CommandEnvironment) (st : Stores) : Outcome := do
  let u ← userAt st env.UserID
  let socials := u.Socials
  let socialsFields : List (String × String) :=
    (if socials.SwitchFC ≠ "" then [("Switch Friend Code", socials.SwitchFC)] else [])
    ++ (if socials.NNID ≠ "" then [("Nintendo Network ID", socials.NNID)] else [])
    ++ (if socials.PSN ≠ "" then [("PSN", socials.PSN)] else [])
    ++ (if socials.Xbox ≠ "" then [("Xbox Live Gamertag", socials.Xbox)] else [])
  if socialsFields.length = 0 then
    pure (NewGenericEmbed "User Settings - Socials" "You don\x27t have any socials yet!", st)
  else
    pure (.built { Title := "Socials",
                   Description := "Below are all of the socials you have added.",
                   Author := none, Fields := socialsFields, Color := none }, st)

/-- The case `"clear", "remove"` of the socials switch; `cmdUsage` is the
usage response computed at the top of the socials case. -/
def userSocialClear (cmdUsage : MessageEmbed) (args : List String)
    (env : CommandEnvironment) (st : Stores) : Outcome := do
  if args.length < 3 then
    pure (cmdUsage, st)
  else
    let a2 ← index args 2
    if a2 = "switchfc" then
      let u ← userAt st env.UserID
      if u.Socials.SwitchFC = "" then
        pure (NewErrorEmbed "User Settings - Socials"
          "You don\x27t have a Switch friend code set.", st)
      else
        pure (NewGenericEmbed "User Settings - Socials" "Cleared your Switch friend code.",
          setUser st env.UserID { u with Socials := { u.Socials with SwitchFC := "" } })
    else if a2 ∈ ["nintendoid", "nintyid", "nnid"] then
      let u ← userAt st env.UserID
      if u.Socials.NNID = "" then
        pure (NewErrorEmbed "User Settings - Socials" "You don\x27t have an NNID set.", st)
      else
        pure (NewGenericEmbed "User Settings - Socials" "Cleared your NNID.",
          setUser st env.UserID { u with Socials := { u.Socials with NNID := "" } })
    else if a2 = "psn" then
      let u ← userAt st env.UserID
      if u.Socials.PSN = "" then
        pure (NewErrorEmbed "User Settings - Socials" "You don\x27t have a PSN set.", st)
      else
        pure (NewGenericEmbed "User Settings - Socials" "Cleared your PSN.",
          setUser st env.UserID { u with Socials := { u.Socials with PSN := "" } })
    else if a2 = "xbox" then
      let u ← userAt st env.UserID
      if u.Socials.Xbox = "" then
        pure (NewErrorEmbed "User Settings - Socials"
          "You don\x27t have an Xbox Live gamertag set.", st)
      else
        pure (NewGenericEmbed "User Settings - Socials" "Cleared your Xbox Live gamertag.",
          setUser st env.UserID { u with Socials := { u.Socials with Xbox := "" } })
    else
      pure (NewErrorEmbed "User Settings - Socials Error"
        ("Unknown social \x60\x60" ++ a2 ++ "\x60\x60."), st)

/-- The case `"social", "socials"` of `commandSettingsUser`; `a0` is `args[0]`. -/
def userSocial (h : Host) (a0 : String) (args : List String) (env : CommandEnvironment)
    (st : Stores) : Outcome := do
  let cmdUsage := getCustomCommandUsage socialCommand ("user " ++ a0)
    "User Settings - Socials Help" env
  if args.length < 2 then
    pure (cmdUsage, st)
  else
    let a1 ← index args 1
    if a1 ∈ ["set", "add"] then userSocialSet h args env st
    else if a1 = "list" then userSocialList env st
    else if a1 ∈ ["clear", "remove"] then userSocialClear cmdUsage args env st
    else if a1 ∈ ["available", "types"] then
      pure (NewGenericEmbed "User Settings - Socials - Types"
        ("These are the available socials you can use:\n\n"
          ++ "\x60\x60switchfc\x60\x60 - Nintendo Switch friend code\n"
          ++ "\x60\x60nnid\x60\x60 - Nintendo Network ID\n"
          ++ "\x60\x60psn\x60\x60 - PlayStation Network\n"
          ++ "\x60\x60xbox\x60\x60 - Xbox Live Gamertag"), st)
    else
      pure (NewErrorEmbed "User Settings - Socials Error"
        ("Unknown socials command \x60\x60" ++ a1 ++ "\x60\x60."), st)

/-- The function `commandSettingsUser`. -/
def commandSettingsUser (h : Host) (args : List String) (env : CommandEnvironment)
    (st : Stores) : Outcome := do
  let a0 ← index args 0
  if a0 ∈ ["about", "aboutme", "description", "desc", "info"] then userAbout h args env st
  else if a0 ∈ ["timezone", "tz"] then userTimezone h args env st
  else if a0 ∈ ["social", "socials"] then userSocial h a0 args env st
  else
    pure (NewErrorEmbed "User Settings Error"
      ("Error finding the setting \x60\x60" ++ a0 ++ "\x60\x60."), st)

/-! ## `commandSettingsServer` -/

/-- The case `"tips"` of `commandSettingsServer`. -/
def serverTips (args : List String) (env : CommandEnvironment) (st : Stores) : Outcome := do
  if args.length ≤ 1 then
    let g ← guildAt st env.GuildID
    if g.TipsChannel ≠ "" then
      pure (NewGenericEmbed "Server Settings - Tips" "Tips are enabled for this server.", st)
    else
      pure (NewGenericEmbed "Server Settings - Tips" "Tips are disabled for this server.", st)
  else
    let a1 ← index args 1
    if a1 = "enable" then
      let g ← guildAt st env.GuildID
      pure (NewGenericEmbed "Server Settings - Tips"
        "Successfully enabled hourly tips for this channel.",
        setGuild st env.GuildID { g with TipsChannel := env.ChannelID })
    else if a1 = "disable" then
      let g ← guildAt st env.GuildID
      pure (NewGenericEmbed "Server Settings - Tips"
        "Successfully disabled hourly tips for this channel.",
        setGuild st env.GuildID { g with TipsChannel := "" })
    else
      pure (NewErrorEmbed "Server Settings - Tips Error"
        ("Unknown tips command \x60\x60" ++ a1 ++ "\x60\x60."), st)

/-- The case `"autosendnowplaying"` of `commandSettingsServer`: `args[1]` is
read without a length check. -/
def serverAutoSendNowPlaying (args : List String) (env : CommandEnvironment)
    (st : Stores) : Outcome := do
  let a1 ← index args 1
  if a1 = "enable" then
    let g ← guildAt st env.GuildID
    pure (NewGenericEmbed "Server Settings - Auto Send Now Playing"
      "Successfully enabled sending now playing messages each time a new track is started without user interaction.",
      setGuild st env.GuildID { g with AutoSendNowPlaying := true })
  else if a1 = "disable" then
    let g ← guildAt st env.GuildID
    pure (NewGenericEmbed "Server Settings - Auto Send Now Playing"
      "Successfully disabled sending now playing messages each time a new track is started without user interaction.",
      setGuild st env.GuildID { g with AutoSendNowPlaying := false })
  else
    pure (NewErrorEmbed "Server Settings - Auto Send Now Playing Error"
      ("Unknown ASNP command \x60\x60" ++ a1 ++ "\x60\x60."), st)

/-- The help command `invitegenHelpCmd`. -/
def invitegenHelpCmd : Command :=
  { HelpText := "Manages invite link generation via the API.",
    RequiredArguments := ["setting (value(s))"],
    Arguments :=
      [{ Name := "setchannel",
         Description := "Sets the invite link channel to the current channel", ArgType := "this" },
       { Name := "key",
         Description := "Displays or sets the key to use for invite link generation",
         ArgType := "this/string" }] }

/-- The case `"invitegen"` of `commandSettingsServer`. -/
def serverInvitegen (args : List String) (env : CommandEnvironment) (st : Stores) : Outcome := do
  if args.length < 2 then
    pure (getCustomCommandUsage invitegenHelpCmd "server invitegen"
      "Server Settings - API Invite Generation Help" env, st)
  else
    let a1 ← index args 1
    if a1 = "setchannel" then
      let g ← guildAt st env.GuildID
      pure (NewGenericEmbed "Server Settings - API Invite Generation"
        "Successfully set the channel to use for generating invite links to this channel.",
        setGuild st env.GuildID { g with APIInviteChannel := env.ChannelID })
    else if a1 = "key" then
      if args.length > 2 then
        let g ← guildAt st env.GuildID
        let g1 := { g with APIInviteKey := Join (args.drop 2) " " }
        pure (NewGenericEmbed "Server Settings - API Invite Generation"
          ("Successfully set the key to use for generating invite links to \x60\x60"
            ++ g1.APIInviteKey ++ "\x60\x60."),
          setGuild st env.GuildID g1)
      else
        let g ← guildAt st env.GuildID
        if g.APIInviteKey = "" then
          pure (NewGenericEmbed "Server Settings - API Invite Generation"
            "No key is currently set for generating invite links!", st)
        else
          pure (NewGenericEmbed "Server Settings - API Invite Generation"
            ("The current key for generating invite links is \x60\x60"
              ++ g.APIInviteKey ++ "\x60\x60."), st)
    else
      pure (NewErrorEmbed "Server Settings - API Invite Generation Error"
        ("Unknown invitegen command \x60\x60" ++ a1 ++ "\x60\x60."), st)

/-- The help command `filterHelpCmd`. -/
def filterHelpCmd : Command :=
  { HelpText := "Manages the swear filter for this server.",
    RequiredArguments := ["setting (value(s))"],
    Arguments :=
      [{ Name := "enable", Description := "Enables the swear filter for this server",
         ArgType := "this" },
       { Name := "disable", Description := "Disables the swear filter for this server",
         ArgType := "this" },
       { Name := "timeout",
         Description := "Displays or sets the timeout for deleting warning messages",
         ArgType := "this/number" },
       { Name := "words",
         Description := "Lists filtered words, or adds/removes specified words/clears all words",
         ArgType := "this/(add word1)/(remove word2)/clear" }] }

/-- The error returned after the switch on `args[1]` of the filter case. -/
def unknownFilterCommand (a1 : String) : MessageEmbed :=
  NewErrorEmbed "Server Settings - Swear Filter Error"
    ("Unknown filter command \x60\x60" ++ a1 ++ "\x60\x60.")

/-- The loop of `filter words remove`: it ranges over the stored word list
and passes each of its words to `remove`, storing the result back each time;
`args` is not read. The helper is not part of `cmd-settings.go` and is taken
as a function of the slice and the word that returns a fresh slice, so the
words the loop reads are those of the list as it was when the loop started.
With a helper that shifts the backing array in place, `range` would read the
shifted array, and the words read from the third position on could differ
from this model; lists of at most two words are read the same way. -/
def removeLoop (h : Host) (words : List String) : List String :=
  words.foldl (fun acc word => h.remove acc word) words

/-- The case `"words"` of the filter switch; when the inner switch on
`args[2]` matches nothing, control leaves both switches and reaches the
error after the switch on `args[1]`. -/
def serverFilterWords (h : Host) (a1 : String) (args : List String)
    (env : CommandEnvironment) (st : Stores) : Outcome := do
  if args.length < 3 then
    let g ← guildAt st env.GuildID
    let words :=
      if g.SwearFilter.BlacklistedWords.length > 0 then Join g.SwearFilter.BlacklistedWords ", "
      else "No words are in the swear filter!"
    pure (.built { Title := "Server Settings - Swear Filter", Description := "",
                   Author := none, Fields := [("Filtered Words", words)],
                   Color := some 0x1C1C1C }, st)
  else
    let a2 ← index args 2
    if a2 = "add" then
      if args.length < 4 then
        pure (NewErrorEmbed "Server Settings - Swear Filter Error"
          "You must specify one or more words to add to the filter.", st)
      else
        let g ← guildAt st env.GuildID
        pure (NewGenericEmbed "Server Settings - Swear Filter"
          "Successfully added the provided words to the filter.",
          setGuild st env.GuildID { g with SwearFilter :=
            { g.SwearFilter with
              BlacklistedWords := g.SwearFilter.BlacklistedWords ++ args.drop 3 } })
    else if a2 = "remove" then
      if args.length < 4 then
        pure (NewErrorEmbed "Server Settings - Swear Filter Error"
          "You must specify one or more words to remove from the filter.", st)
      else
        let g ← guildAt st env.GuildID
        pure (NewGenericEmbed "Server Settings - Swear Filter"
          "Successfully removed the provided words from the filter.",
          setGuild st env.GuildID { g with SwearFilter :=
            { g.SwearFilter with
              BlacklistedWords := removeLoop h g.SwearFilter.BlacklistedWords } })
    else if a2 = "clear" then
      let g ← guildAt st env.GuildID
      pure (NewGenericEmbed "Server Settings - Swear Filter"
        "Successfully cleared all words from the filter.",
        setGuild st env.GuildID { g with SwearFilter :=
          { g.SwearFilter with BlacklistedWords := [] } })
    else
      pure (unknownFilterCommand a1, st)

/-- The case `"timeout"` of the filter switch. -/
def serverFilterTimeout (args : List String) (env : CommandEnvironment)
    (st : Stores) : Outcome := do
  if args.length < 3 then
    let g ← guildAt st env.GuildID
    if g.SwearFilter.WarningDeleteTimeout = 0 then
      pure (NewGenericEmbed "Server Settings - Swear Filter"
        "The timeout for deleting warning messages is disabled.", st)
    else
      pure (NewGenericEmbed "Server Settings - Swear Filter"
        ("The current timeout for deleting warning messages is set to "
          ++ Itoa g.SwearFilter.WarningDeleteTimeout ++ " seconds."), st)
  else
    let a2 ← index args 2
    match Atoi a2 with
    | none =>
      pure (NewErrorEmbed "Server Settings - Swear Filter Error"
        ("\x60\x60" ++ a2 ++ "\x60\x60 is not a valid number."), st)
    | some timeout =>
      let g ← guildAt st env.GuildID
      pure (NewGenericEmbed "Server Settings - Swear Filter"
        ("Successfully set he timeout for deleting warning messages to " ++ a2 ++ " seconds."),
        setGuild st env.GuildID { g with SwearFilter :=
          { g.SwearFilter with WarningDeleteTimeout := timeout } })

/-- The case `"filter"` of `commandSettingsServer`. -/
def serverFilter (h : Host) (args : List String) (env : CommandEnvironment)
    (st : Stores) : Outcome := do
  if args.length < 2 then
    pure (getCustomCommandUsage filterHelpCmd "server filter"
      "Server Settings - Swear Filter Help" env, st)
  else
    let a1 ← index args 1
    if a1 = "enable" then
      let g ← guildAt st env.GuildID
      pure (NewGenericEmbed "Server Settings - Swear Filter"
        "Successfully enabled the swear filter.",
        setGuild st env.GuildID { g with SwearFilter := { g.SwearFilter with Enabled := true } })
    else if a1 = "disable" then
      let g ← guildAt st env.GuildID
      pure (NewGenericEmbed "Server Settings - Swear Filter"
        "Successfully disabled the swear filter.",
        setGuild st env.GuildID { g with SwearFilter := { g.SwearFilter with Enabled := false } })
    else if a1 = "words" then serverFilterWords h a1 args env st
    else if a1 = "timeout" then serverFilterTimeout args env st
    else pure (unknownFilterCommand a1, st)

/-- The help command `logHelpCmd`. -/
def logHelpCmd : Command :=
  { HelpText := "Sets the logging capabilities for this server.",
    RequiredArguments := ["setting (value(s))"],
    Arguments :=
      [{ Name := "set", Description := "Sets the logging channel to the current channel",
         ArgType := "this" },
       { Name := "enable",
         Description := "Enables logging for the server (to this channel if not set), enabling any optionally specified events",
         ArgType := "this/event(s)" },
       { Name := "disable",
         Description := "Disables logging for the server, disabling any optionally specified events",
         ArgType := "this/event(s)" },
       { Name := "unset",
         Description := "Unsets the current logging channel and disables logging",
         ArgType := "this" },
       { Name := "events",
         Description := "Returns a list of available events to enable/disable",
         ArgType := "this" }] }

/-- The loop `for _, event := range fields` with body `event.Set(v)` of
`log enable all`, when no call of `Set` fails. -/
def setAllEvents (v : Bool) (e : LogEvents) : LogEvents :=
  EventField.all.foldl (fun acc event => event.Set v acc) e

/-- The loop `for _, event := range fields` of `log enable all` with its
early return: the flag set as the loop leaves it, and whether it left through
`if err != nil`. The fields set before a failing call stay set. -/
def setAllLoop (v : Bool) : List EventField → LogEvents → LogEvents × Bool
  | [], e => (e, false)
  | event :: fields, e =>
    match event.SetChecked v e with
    | .ok e1 => setAllLoop v fields e1
    | .error _ => (e, true)

/-- The variables of the loop over event names: the flag set behind
`LoggingEventsTmp`, the names applied so far (`eventsEnabled`, resp.
`eventsDisabled`) and the names not found so far (`eventsFailed`). -/
structure EventLoop where
  events : LogEvents
  applied : List String
  failed : List String
  deriving DecidableEq, Repr

/-- One iteration of the loop over event names; the error result of
`event.Set(v)` is dropped by the source. -/
def eventStep (v : Bool) (s : EventLoop) (eventName : String) : EventLoop :=
  match FieldOk eventName with
  | some event =>
    { s with
      events :=
        match event.SetChecked v s.events with
        | .ok e1 => e1
        | .error _ => s.events,
      applied := s.applied ++ [eventName] }
  | none => { s with failed := s.failed ++ [eventName] }

/-- The loop `for _, eventName := range eventsToEnable` (resp.
`eventsToDisable`), started with two empty name lists. -/
def eventLoop (v : Bool) (names : List String) (e : LogEvents) : EventLoop :=
  names.foldl (eventStep v) { events := e, applied := [], failed := [] }

/-- The tail of `log enable`, after the special cases `all` and
`recommended`; `g` already has `LoggingEnabled` set. -/
def serverLogEnableNames (args : List String) (env : CommandEnvironment) (st : Stores)
    (g : GuildSettings) : Outcome :=
  let eventsToEnable : List String := if args.length > 2 then args.drop 2 else []
  let loop : EventLoop :=
    if eventsToEnable.length > 0 then eventLoop true eventsToEnable g.LogSettings.LoggingEvents
    else { events := g.LogSettings.LoggingEvents, applied := [], failed := [] }
  let g1 := { g with LogSettings := { g.LogSettings with LoggingEvents := loop.events } }
  let m0 := "Successfully enabled logging"
  let m1 :=
    if g1.LogSettings.LoggingChannel ≠ "" then m0 ++ "."
    else m0 ++ " and set the logging channel to this channel."
  let m2 :=
    if eventsToEnable.length > 0 then
      let m3 := m1 ++ "\n"
      let m4 :=
        if loop.applied.length > 0 then
          m3 ++ ("\nEnabled the following events: " ++ Join loop.applied ", ")
        else m3
      if loop.failed.length > 0 then
        m4 ++ ("\nFailed to find the following events: " ++ Join loop.failed ", ")
      else m4
    else m1
  pure (NewGenericEmbed "Server Settings - Log" m2, setGuild st env.GuildID g1)

/-- The case `"enable"` of the log switch; `g` is the record behind
`guildSettings[env.Guild.ID]`. -/
def serverLogEnable (args : List String) (env : CommandEnvironment) (st : Stores)
    (g : GuildSettings) : Outcome := do
  let g1 := { g with LogSettings := { g.LogSettings with LoggingEnabled := true } }
  if args.length = 3 then
    let a2 ← index args 2
    if a2 = "all" then
      let loop := setAllLoop true EventField.all g1.LogSettings.LoggingEvents
      let g2 := { g1 with LogSettings := { g1.LogSettings with LoggingEvents := loop.1 } }
      if loop.2 then
        pure (NewErrorEmbed "Server Settings - Log" "Unable to enable all logging events.",
          setGuild st env.GuildID g2)
      else if g2.LogSettings.LoggingChannel = "" then
        pure (NewGenericEmbed "Server Settings - Log"
          "Successfully enabled all logging events and set the logging channel to this channel.",
          setGuild st env.GuildID
            { g2 with LogSettings := { g2.LogSettings with LoggingChannel := env.ChannelID } })
      else
        pure (NewGenericEmbed "Server Settings - Log"
          "Successfully enabled all logging events.", setGuild st env.GuildID g2)
    else if a2 = "recommended" then
      let g2 := { g1 with LogSettings :=
        { g1.LogSettings with LoggingEvents := LogEventsRecommended } }
      if g2.LogSettings.LoggingChannel = "" then
        pure (NewGenericEmbed "Server Settings - Log"
          "Successfully toggled all logging events to their recommended states and set the logging channel to this channel.",
          setGuild st env.GuildID
            { g2 with LogSettings := { g2.LogSettings with LoggingChannel := env.ChannelID } })
      else
        pure (NewGenericEmbed "Server Settings - Log"
          "Successfully toggled all logging events to their recommended states.",
          setGuild st env.GuildID g2)
    else serverLogEnableNames args env st g1
  else serverLogEnableNames args env st g1

/-- The case `"disable"` of the log switch; `g` is the record behind
`guildSettings[env.Guild.ID]`. -/
def serverLogDisable (args : List String) (env : CommandEnvironment) (st : Stores)
    (g : GuildSettings) : Outcome :=
  if args.length = 3 ∧ args.get? 2 = some "all" then
    pure (NewGenericEmbed "Server Settings - Log" "Successfully disabled all logging events.",
      setGuild st env.GuildID
        { g with LogSettings := { g.LogSettings with LoggingEvents := LogEvents.zero } })
  else
    let eventsToDisable : List String := if args.length > 2 then args.drop 2 else []
    if eventsToDisable.length > 0 then
      let loop := eventLoop false eventsToDisable g.LogSettings.LoggingEvents
      let g1 := { g with LogSettings := { g.LogSettings with LoggingEvents := loop.events } }
      let m0 := ""
      let m1 :=
        if loop.applied.length > 0 then
          m0 ++ ("\nDisabled the following events: " ++ Join loop.applied ", ")
        else m0
      let m2 :=
        if loop.failed.length > 0 then
          m1 ++ ("\nFailed to find the following events: " ++ Join loop.failed ", ")
        else m1
      pure (NewGenericEmbed "Server Settings - Log" m2, setGuild st env.GuildID g1)
    else
      pure (NewGenericEmbed "Server Settings - Log" "Successfully disabled logging.",
        setGuild st env.GuildID
          { g with LogSettings := { g.LogSettings with LoggingEnabled := false } })

/-- The body built by the case `"events"` of the log switch. -/
def eventStates (e : LogEvents) : String :=
  EventField.all.foldl
    (fun acc event => acc ++ ("\n" ++ event.Name ++ ": **" ++ FormatBool (event.Value e) ++ "**"))
    "__Event states__\n"

/-- The case `"log"` of `commandSettingsServer`. Taking the address
`&guildSettings[env.Guild.ID].LogSettings.LoggingEvents` dereferences the
record before the switch on `args[1]`. -/
def serverLog (args : List String) (env : CommandEnvironment) (st : Stores) : Outcome := do
  if args.length < 2 then
    pure (getCustomCommandUsage logHelpCmd "server log" "Server Settings - Log Help" env, st)
  else
    let g ← guildAt st env.GuildID
    let a1 ← index args 1
    if a1 = "set" then
      pure (NewGenericEmbed "Server Settings - Log"
        "Successfully set the logging channel to this channel.",
        setGuild st env.GuildID
          { g with LogSettings := { g.LogSettings with LoggingChannel := env.ChannelID } })
    else if a1 = "enable" then serverLogEnable args env st g
    else if a1 = "disable" then serverLogDisable args env st g
    else if a1 = "events" then
      pure (NewGenericEmbed "Server Settings - Log" (eventStates g.LogSettings.LoggingEvents), st)
    else
      pure (NewErrorEmbed "Server Settings - Log Error"
        ("Unknown log command \x60\x60" ++ a1 ++ "\x60\x60."), st)

/-- The case `"reset"` of `commandSettingsServer`. -/
def serverReset (args : List String) (env : CommandEnvironment) (st : Stores) : Outcome := do
  if args.length < 2 then
    pure (NewErrorEmbed "Server Settings - Reset Error"
      "You must specify a setting to reset.", st)
  else
    let a1 ← index args 1
    let done : Stores → Outcome := fun st1 =>
      pure (NewGenericEmbed "Server Settings - Reset"
        ("Successfully reset the settings for \x60\x60" ++ a1 ++ "\x60\x60."), st1)
    if a1 = "joinmsg" then
      let g ← guildAt st env.GuildID
      done (setGuild st env.GuildID { g with UserJoinMessage := "", UserJoinMessageChannel := "" })
    else if a1 = "leavemsg" then
      let g ← guildAt st env.GuildID
      done (setGuild st env.GuildID
        { g with UserLeaveMessage := "", UserLeaveMessageChannel := "" })
    else if a1 = "log" then
      let g ← guildAt st env.GuildID
      done (setGuild st env.GuildID { g with LogSettings :=
        { LoggingChannel := "", LoggingEnabled := false, LoggingEvents := LogEvents.zero } })
    else if a1 = "filter" then
      let g ← guildAt st env.GuildID
      done (setGuild st env.GuildID { g with SwearFilter :=
        { g.SwearFilter with
          Enabled := false, BlacklistedWords := [], DisableNormalize := false,
          DisableSpacedTab := false, DisableMultiWhitespaceStripping := false,
          DisableZeroWidthStripping := false, DisableSpacedBypass := false,
          WarningDeleteTimeout := 0, AllowAdminBypass := false,
          AllowBotOwnerBypass := false } })
    else if a1 = "invitegen" then
      let g ← guildAt st env.GuildID
      done (setGuild st env.GuildID { g with APIInviteChannel := "", APIInviteKey := "" })
    else
      pure (NewErrorEmbed "Server Settings - Reset Error"
        ("Error finding the setting \x60\x60" ++ a1 ++ "\x60\x60."), st)

/-- The function `commandSettingsServer`. -/
def commandSettingsServer (h : Host) (args : List String) (env : CommandEnvironment)
    (st : Stores) : Outcome := do
  let a0 ← index args 0
  if a0 = "joinmsg" then
    let g ← guildAt st env.GuildID
    pure (NewGenericEmbed "Server Settings - Join Message"
      "Successfully set the join message to this channel.",
      setGuild st env.GuildID
        { g with UserJoinMessage := Join (args.drop 1) " ",
                 UserJoinMessageChannel := env.ChannelID })
  else if a0 = "leavemsg" then
    let g ← guildAt st env.GuildID
    pure (NewGenericEmbed "Server Settings - Leave Message"
      "Successfully set the leave message to this channel.",
      setGuild st env.GuildID
        { g with UserLeaveMessage := Join (args.drop 1) " ",
                 UserLeaveMessageChannel := env.ChannelID })
  else if a0 = "tips" then serverTips args env st
  else if a0 = "autosendnowplaying" then serverAutoSendNowPlaying args env st
  else if a0 = "invitegen" then serverInvitegen args env st
  else if a0 = "filter" then serverFilter h args env st
  else if a0 = "log" then serverLog args env st
  else if a0 = "reset" then serverReset args env st
  else
    pure (NewErrorEmbed "Server Settings Error"
      ("Error finding the setting \x60\x60" ++ a0 ++ "\x60\x60."), st)

/-! ## Specification-side definitions -/

/-- The friend-code shape in the words of the specification: the literal
`SW-`, four decimal digits, a dash, four decimal digits, a dash, four decimal
digits, and nothing before or after. -/
def isFriendCodeShape (s : String) : Bool :=
  match s.data with
  | [p0, p1, p2, a0, a1, a2, a3, m0, b0, b1, b2, b3, m1, c0, c1, c2, c3] =>
    p0 == 'S' && p1 == 'W' && p2 == '-'
      && a0.isDigit && a1.isDigit && a2.isDigit && a3.isDigit && m0 == '-'
      && b0.isDigit && b1.isDigit && b2.isDigit && b3.isDigit && m1 == '-'
      && c0.isDigit && c1.isDigit && c2.isDigit && c3.isDigit
  | _ => false

/-- The sixteen names of the flag registry, as the specification fixes them:
the field names of `LogEvents`. -/
def eventNames : List String :=
  ["ChannelCreate", "ChannelDelete", "ChannelUpdate", "GuildBanAdd", "GuildBanRemove",
   "GuildEmojisUpdate", "GuildMemberAdd", "GuildMemberRemove", "GuildRoleCreate",
   "GuildRoleDelete", "GuildRoleUpdate", "GuildUpdate", "UserUpdate", "VoiceStateUpdate",
   "SwearDetect", "UserModlog"]

/-- The report the specification asks for after a list of event names: the
recognized names under "`verb` the following events", the others under
"Failed to find the following events", each part in input order and left out
when it would be empty. -/
def eventReport (verb : String) (names : List String) : String :=
  let found := names.filter (fun t => decide (t ∈ eventNames))
  let missing := names.filter (fun t => decide (t ∉ eventNames))
  (if found ≠ [] then "\n" ++ verb ++ " the following events: " ++ ", ".intercalate found else "")
    ++ (if missing ≠ [] then "\nFailed to find the following events: " ++ ", ".intercalate missing
        else "")

/-- The flag set with every flag true. -/
def LogEvents.allTrue : LogEvents :=
  { ChannelCreate := true, ChannelDelete := true, ChannelUpdate := true,
    GuildBanAdd := true, GuildBanRemove := true, GuildEmojisUpdate := true,
    GuildMemberAdd := true, GuildMemberRemove := true, GuildRoleCreate := true,
    GuildRoleDelete := true, GuildRoleUpdate := true, GuildUpdate := true,
    UserUpdate := true, VoiceStateUpdate := true, SwearDetect := true,
    UserModlog := true }

/-- No mutation on error, for the outcome `o` of a call made in the stores
`st`: if the call returned an error response, the stores it left are `st`. -/
def KeepsStoresOnError (st : Stores) (o : Outcome) : Prop :=
  ∀ resp st1, o = .ok (resp, st1) → resp.isError = true → st1 = st

/-- Value of a run of decimal digits, most significant digit first. -/
def digitsValue (ds : List Char) : Nat :=
  ds.foldl (fun acc c => acc * 10 + (c.toNat - 48)) 0

/-- A base-10 integer in the words of the specification, with no bound on
its size: an optional sign followed by one or more decimal digits. The result
is the integer the token denotes, `none` when the token is not of that
form. -/
def base10Integer (t : String) : Option Int :=
  let split : Bool × List Char :=
    match t.data with
    | '-' :: r => (true, r)
    | '+' :: r => (false, r)
    | cs => (false, cs)
  if split.2 ≠ [] ∧ split.2.all Char.isDigit = true then
    some (if split.1 then -(digitsValue split.2 : Int) else (digitsValue split.2 : Int))
  else none

/-- A response body names a token when the token occurs in it as a run of
consecutive characters. -/
def bodyNames (body token : String) : Bool :=
  decide (token.data <:+: body.data)

/-- A host whose global default is `cli$`, which knows one timezone and one
Discord user, and whose Nintendo client finds every id. -/
def demoHost : Host :=
  { CommandPrefix := "cli$",
    LoadLocation := fun n => if n = "America/New_York" then some { name := n } else none,
    NowIn := fun l => "now in " ++ l.name,
    DiscordUser := fun k =>
      if k = "u" then some { Username := "user", Discriminator := "0001", Avatar2048 := "" }
      else none,
    DoesUserExist := fun _ => some true,
    remove := fun l w => l.filter (fun x => x ≠ w) }

/-- A request by user `u` in channel `c` of guild `g`. -/
def demoEnv : CommandEnvironment :=
  { GuildID := "g", UserID := "u", ChannelID := "c", Mentions := [], BotPrefix := "cli$" }

/-- A user record whose stored friend code lacks the `SW-` part. -/
def demoUser : UserSettings :=
  { Balance := 0, DailyNext := 0, AboutMe := "", Timezone := "",
    Socials := { SwitchFC := "1234-5678-9012", NNID := "n", PSN := "p", Xbox := "x" } }

/-- A guild record with a mixed flag set, a filter in use and an override. -/
def demoGuild : GuildSettings :=
  { AllowVoice := true, BotAdminRoles := [], BotAdminUsers := [],
    BotOptions := { payload := 0 }, BotPrefix := "!", CustomResponses := [],
    LogSettings :=
      { LoggingEnabled := false, LoggingChannel := "",
        LoggingEvents := { LogEvents.zero with ChannelUpdate := true, UserUpdate := true } },
    SwearFilter :=
      { Enabled := true, BlacklistedWords := ["a", "b"], DisableNormalize := true,
        DisableSpacedTab := true, DisableMultiWhitespaceStripping := true,
        DisableZeroWidthStripping := true, DisableSpacedBypass := true,
        WarningDeleteTimeout := 5, AllowAdminBypass := true, AllowBotOwnerBypass := true },
    TipsChannel := "", UserJoinMessage := "", UserJoinMessageChannel := "",
    UserLeaveMessage := "", UserLeaveMessageChannel := "", RoleMeList := [],
    AutoSendNowPlaying := false, APIInviteChannel := "", APIInviteKey := "", Feeds := [] }

/-- Stores holding the record of guild `g` and the record of user `u`. -/
def demoStores : Stores :=
  { guildSettings := fun k => if k = "g" then some demoGuild else none,
    userSettings := fun k => if k = "u" then some demoUser else none }

/-- The sample guild with logging switched on and sent to channel `c0`. -/
def demoGuildLogging : GuildSettings :=
  { demoGuild with
    LogSettings :=
      { demoGuild.LogSettings with LoggingEnabled := true, LoggingChannel := "c0" } }

/-- Stores holding the logging sample guild under `g` and the sample user. -/
def demoStoresLogging : Stores :=
  { guildSettings := fun k => if k = "g" then some demoGuildLogging else none,
    userSettings := fun k => if k = "u" then some demoUser else none }

theorem ok_bind {α β : Type} (a : α) (f : α → Except Fault β) :
    (Except.ok a >>= f) = f a := rfl

theorem error_bind {α β : Type} (e : Fault) (f : α → Except Fault β) :
    ((Except.error e : Except Fault α) >>= f) = Except.error e := rfl

theorem pure_eq_ok {α : Type} (a : α) : (pure a : Except Fault α) = Except.ok a := rfl

theorem isDigit_iff (c : Char) : c.isDigit = true ↔ 48 ≤ c.toNat ∧ c.toNat ≤ 57 := by
  simp [Char.isDigit, Char.toNat, UInt32.le_def, Fin.le_def]
  rfl

/-- A string of the exact friend-code shape passes `MatchString`. -/
theorem matchString_of_shape (s : String) (hs : isFriendCodeShape s = true) :
    MatchString s = true := by
  unfold isFriendCodeShape at hs
  unfold MatchString
  split at hs
  · rename_i heq
    rw [heq]
    simp only [Bool.and_eq_true, beq_iff_eq, isDigit_iff] at hs
    simp [matchAnywhere, matchHere, regexpSwitchFC, Atom.test, hs]
  · simp at hs

/-! ## Friend codes and socials -/

/-- C1. For every string `s` of the exact shape `SW-dddd-dddd-dddd` and every
user record whose stored friend code differs from `s`, the command
`user social set switchfc s` passes the validator, returns the success
response and leaves `Socials.SwitchFC` equal to `s`. -/
theorem switchfc_set_of_shape (h : Host) (env : CommandEnvironment) (st : Stores)
    (u : UserSettings) (s : String)
    (hu : st.userSettings env.UserID = some u)
    (hs : isFriendCodeShape s = true)
    (hne : u.Socials.SwitchFC ≠ s) :
    MatchString s = true ∧
    commandSettingsUser h ["social", "set", "switchfc", s] env st
      = .ok (NewGenericEmbed "User Settings - Socials"
               ("Successfully set your Switch friend code to \x60\x60" ++ s ++ "\x60\x60."),
             setUser st env.UserID { u with Socials := { u.Socials with SwitchFC := s } }) ∧
    ((setUser st env.UserID { u with Socials := { u.Socials with SwitchFC := s } }).userSettings
        env.UserID).map (fun r => r.Socials.SwitchFC) = some s := by
  have hm := matchString_of_shape s hs
  refine ⟨hm, ?_, ?_⟩
  · simp [commandSettingsUser, userSocial, userSocialSet, index, userAt, hu, hm, hne,
      ok_bind, pure_eq_ok]
  · simp [setUser]

/-- C1 at the code `SW-1234-5678-9012` and the sample user. -/
theorem switchfc_set_of_shape_witness :
    (demoStores.userSettings demoEnv.UserID = some demoUser
      ∧ isFriendCodeShape "SW-1234-5678-9012" = true
      ∧ demoUser.Socials.SwitchFC ≠ "SW-1234-5678-9012") ∧
    MatchString "SW-1234-5678-9012" = true ∧
    commandSettingsUser demoHost ["social", "set", "switchfc", "SW-1234-5678-9012"]
        demoEnv demoStores
      = .ok (NewGenericEmbed "User Settings - Socials"
               ("Successfully set your Switch friend code to \x60\x60" ++ "SW-1234-5678-9012"
                 ++ "\x60\x60."),
             setUser demoStores demoEnv.UserID
               { demoUser with
                 Socials := { demoUser.Socials with SwitchFC := "SW-1234-5678-9012" } }) ∧
    ((setUser demoStores demoEnv.UserID
        { demoUser with
          Socials := { demoUser.Socials with SwitchFC := "SW-1234-5678-9012" } }).userSettings
        demoEnv.UserID).map (fun r => r.Socials.SwitchFC) = some "SW-1234-5678-9012" :=
  ⟨⟨by decide, by decide, by decide⟩,
    switchfc_set_of_shape demoHost demoEnv demoStores demoUser "SW-1234-5678-9012"
      (by decide) (by decide) (by decide)⟩

/-- C2. The string `xSW-0000-0000-0000y` is not of the friend-code shape
(a character stands before and after an otherwise valid code), yet
`user social set switchfc xSW-0000-0000-0000y` passes the unanchored pattern,
returns the success response and stores the whole string. -/
theorem switchfc_padded_code_accepted :
    isFriendCodeShape "xSW-0000-0000-0000y" = false ∧
    MatchString "xSW-0000-0000-0000y" = true ∧
    commandSettingsUser demoHost ["social", "set", "switchfc", "xSW-0000-0000-0000y"]
        demoEnv demoStores
      = .ok (NewGenericEmbed "User Settings - Socials"
               "Successfully set your Switch friend code to \x60\x60xSW-0000-0000-0000y\x60\x60.",
             setUser demoStores "u"
               { demoUser with
                 Socials := { demoUser.Socials with SwitchFC := "xSW-0000-0000-0000y" } }) := by
  have hm : MatchString "xSW-0000-0000-0000y" = true := by decide
  have hne : demoUser.Socials.SwitchFC ≠ "xSW-0000-0000-0000y" := by decide
  have hu : demoStores.userSettings demoEnv.UserID = some demoUser := by decide
  refine ⟨by decide, hm, ?_⟩
  simp [commandSettingsUser, userSocial, userSocialSet, index, userAt, hu, hm, hne,
    ok_bind, pure_eq_ok]
  rfl

theorem setAllEvents_true (e : LogEvents) : setAllEvents true e = LogEvents.allTrue := by
  simp [setAllEvents, EventField.all, EventField.Set, LogEvents.allTrue]

/-- Every field of `LogEvents` is exported, so `Set` never returns an error. -/
theorem setChecked_eq (f : EventField) (v : Bool) (e : LogEvents) :
    f.SetChecked v e = .ok (f.Set v e) := by
  cases f <;> rfl

/-- The loop of `log enable all` never leaves through its error return. -/
theorem setAllLoop_all (v : Bool) (e : LogEvents) :
    setAllLoop v EventField.all e = (setAllEvents v e, false) := by
  simp [setAllLoop, setAllEvents, EventField.all, setChecked_eq]

theorem setGuild_same (st : Stores) (id : String) (g : GuildSettings) :
    (setGuild st id g).guildSettings id = some g := by
  simp [setGuild]

/-- The outcome of `server log enable all` on a provisioned record. -/
theorem log_enable_all_run (h : Host) (env : CommandEnvironment) (st : Stores)
    (g : GuildSettings) (hg : st.guildSettings env.GuildID = some g) :
    commandSettingsServer h ["log", "enable", "all"] env st
      = .ok (NewGenericEmbed "Server Settings - Log"
               (if g.LogSettings.LoggingChannel = "" then
                  "Successfully enabled all logging events and set the logging channel to this channel."
                else "Successfully enabled all logging events."),
             setGuild st env.GuildID
               { g with LogSettings :=
                  { LoggingEnabled := true,
                    LoggingChannel :=
                      if g.LogSettings.LoggingChannel = "" then env.ChannelID
                      else g.LogSettings.LoggingChannel,
                    LoggingEvents := LogEvents.allTrue } }) := by
  by_cases hc : g.LogSettings.LoggingChannel = "" <;>
    simp [commandSettingsServer, serverLog, serverLogEnable, index, guildAt, hg, hc,
      ok_bind, pure_eq_ok, setAllLoop_all, setAllEvents_true]

/-- The outcome of `server log enable recommended` on a provisioned record. -/
theorem log_enable_recommended_run (h : Host) (env : CommandEnvironment) (st : Stores)
    (g : GuildSettings) (hg : st.guildSettings env.GuildID = some g) :
    commandSettingsServer h ["log", "enable", "recommended"] env st
      = .ok (NewGenericEmbed "Server Settings - Log"
               (if g.LogSettings.LoggingChannel = "" then
                  "Successfully toggled all logging events to their recommended states and set the logging channel to this channel."
                else "Successfully toggled all logging events to their recommended states."),
             setGuild st env.GuildID
               { g with LogSettings :=
                  { LoggingEnabled := true,
                    LoggingChannel :=
                      if g.LogSettings.LoggingChannel = "" then env.ChannelID
                      else g.LogSettings.LoggingChannel,
                    LoggingEvents := LogEventsRecommended } }) := by
  by_cases hc : g.LogSettings.LoggingChannel = "" <;>
    simp [commandSettingsServer, serverLog, serverLogEnable, index, guildAt, hg, hc,
      ok_bind, pure_eq_ok]

/-- The outcome of `server log disable all` on a provisioned record. -/
theorem log_disable_all_run (h : Host) (env : CommandEnvironment) (st : Stores)
    (g : GuildSettings) (hg : st.guildSettings env.GuildID = some g) :
    commandSettingsServer h ["log", "disable", "all"] env st
      = .ok (NewGenericEmbed "Server Settings - Log" "Successfully disabled all logging events.",
             setGuild st env.GuildID
               { g with LogSettings := { g.LogSettings with LoggingEvents := LogEvents.zero } }) := by
  simp [commandSettingsServer, serverLog, serverLogDisable, index, guildAt, hg,
    ok_bind, pure_eq_ok]

/-- C4. For every prior community record, after `server log enable all` every
one of the sixteen `LogEvents` flags is true, and after
`server log disable all` every one of them is false; both commands return a
success response. -/
theorem log_enable_disable_all (h : Host) (env : CommandEnvironment) (st : Stores)
    (g : GuildSettings) (hg : st.guildSettings env.GuildID = some g) :
    (∃ resp st1 g1,
      commandSettingsServer h ["log", "enable", "all"] env st = .ok (resp, st1)
      ∧ resp.isError = false
      ∧ st1.guildSettings env.GuildID = some g1
      ∧ g1.LogSettings.LoggingEvents = LogEvents.allTrue
      ∧ ∀ f : EventField, f.Value g1.LogSettings.LoggingEvents = true) ∧
    (∃ resp st1 g1,
      commandSettingsServer h ["log", "disable", "all"] env st = .ok (resp, st1)
      ∧ resp.isError = false
      ∧ st1.guildSettings env.GuildID = some g1
      ∧ g1.LogSettings.LoggingEvents = LogEvents.zero
      ∧ ∀ f : EventField, f.Value g1.LogSettings.LoggingEvents = false) := by
  have hall : ∀ f : EventField, f.Value LogEvents.allTrue = true := by
    intro f; cases f <;> rfl
  have hzero : ∀ f : EventField, f.Value LogEvents.zero = false := by
    intro f; cases f <;> rfl
  exact ⟨⟨_, _, _, log_enable_all_run h env st g hg, rfl, setGuild_same _ _ _, rfl, hall⟩,
    ⟨_, _, _, log_disable_all_run h env st g hg, rfl, setGuild_same _ _ _, rfl, hzero⟩⟩

/-- C4 at the sample guild, whose flag set is mixed beforehand. -/
theorem log_enable_disable_all_witness :
    demoStores.guildSettings demoEnv.GuildID = some demoGuild ∧
    (∃ resp st1 g1,
      commandSettingsServer demoHost ["log", "enable", "all"] demoEnv demoStores = .ok (resp, st1)
      ∧ resp.isError = false
      ∧ st1.guildSettings demoEnv.GuildID = some g1
      ∧ g1.LogSettings.LoggingEvents = LogEvents.allTrue
      ∧ ∀ f : EventField, f.Value g1.LogSettings.LoggingEvents = true) ∧
    (∃ resp st1 g1,
      commandSettingsServer demoHost ["log", "disable", "all"] demoEnv demoStores
        = .ok (resp, st1)
      ∧ resp.isError = false
      ∧ st1.guildSettings demoEnv.GuildID = some g1
      ∧ g1.LogSettings.LoggingEvents = LogEvents.zero
      ∧ ∀ f : EventField, f.Value g1.LogSettings.LoggingEvents = false) :=
  ⟨by decide, log_enable_disable_all demoHost demoEnv demoStores demoGuild (by decide)⟩

/-- C5. For every prior flag state, after `server log enable recommended` the
flag set equals `LogEventsRecommended`: the thirteen flags ChannelCreate,
ChannelDelete, GuildBanAdd, GuildBanRemove, GuildMemberAdd, GuildMemberRemove,
GuildRoleCreate, GuildRoleDelete, GuildRoleUpdate, GuildUpdate, SwearDetect,
UserModlog and VoiceStateUpdate are true, and ChannelUpdate, GuildEmojisUpdate
and UserUpdate are false. This holds in particular in the state left by
`server log enable all`. -/
theorem log_enable_recommended (h : Host) (env : CommandEnvironment) (st : Stores)
    (g : GuildSettings) (hg : st.guildSettings env.GuildID = some g) :
    (∃ resp st1 g1,
      commandSettingsServer h ["log", "enable", "recommended"] env st = .ok (resp, st1)
      ∧ resp.isError = false
      ∧ st1.guildSettings env.GuildID = some g1
      ∧ g1.LogSettings.LoggingEvents = LogEventsRecommended) ∧
    (∃ r1 st1 r2 st2 g2,
      commandSettingsServer h ["log", "enable", "all"] env st = .ok (r1, st1)
      ∧ commandSettingsServer h ["log", "enable", "recommended"] env st1 = .ok (r2, st2)
      ∧ r2.isError = false
      ∧ st2.guildSettings env.GuildID = some g2
      ∧ g2.LogSettings.LoggingEvents = LogEventsRecommended) ∧
    (∀ f : EventField,
      f.Value LogEventsRecommended
        = decide (f ∈ [EventField.ChannelCreate, .ChannelDelete, .GuildBanAdd, .GuildBanRemove,
            .GuildMemberAdd, .GuildMemberRemove, .GuildRoleCreate, .GuildRoleDelete,
            .GuildRoleUpdate, .GuildUpdate, .SwearDetect, .UserModlog, .VoiceStateUpdate])) ∧
    (EventField.ChannelUpdate.Value LogEventsRecommended = false
      ∧ EventField.GuildEmojisUpdate.Value LogEventsRecommended = false
      ∧ EventField.UserUpdate.Value LogEventsRecommended = false) := by
  refine ⟨⟨_, _, _, log_enable_recommended_run h env st g hg, rfl, setGuild_same _ _ _, rfl⟩,
    ⟨_, _, _, _, _, log_enable_all_run h env st g hg,
      log_enable_recommended_run h env _ _ (setGuild_same _ _ _), rfl, setGuild_same _ _ _, rfl⟩,
    ?_, by decide⟩
  intro f
  cases f <;> decide

/-- C5 at the sample guild. -/
theorem log_enable_recommended_witness :
    demoStores.guildSettings demoEnv.GuildID = some demoGuild ∧
    ∃ resp st1 g1,
      commandSettingsServer demoHost ["log", "enable", "recommended"] demoEnv demoStores
        = .ok (resp, st1)
      ∧ resp.isError = false
      ∧ st1.guildSettings demoEnv.GuildID = some g1
      ∧ g1.LogSettings.LoggingEvents = LogEventsRecommended :=
  ⟨by decide, (log_enable_recommended demoHost demoEnv demoStores demoGuild (by decide)).1⟩

/-! ## Lists of event names -/

theorem fieldOk_name (f : EventField) : FieldOk f.Name = some f := by
  cases f <;> decide

theorem fieldOk_some {t : String} {f : EventField} (hf : FieldOk t = some f) : f.Name = t := by
  have := List.find?_some hf
  simpa using this

theorem eventNames_eq : eventNames = EventField.all.map EventField.Name := by
  decide

theorem fieldOk_none_iff (t : String) : FieldOk t = none ↔ t ∉ eventNames := by
  rw [eventNames_eq]
  simp [FieldOk, List.find?_eq_none]

theorem name_injective {f f0 : EventField} (hn : f.Name = f0.Name) : f = f0 := by
  have h1 := fieldOk_name f
  rw [hn, fieldOk_name f0] at h1
  exact (Option.some.inj h1).symm

theorem name_mem_eventNames (f : EventField) : f.Name ∈ eventNames := by
  by_contra hc
  have := (fieldOk_none_iff f.Name).2 hc
  rw [fieldOk_name] at this
  exact Option.noConfusion this

theorem value_set (f f0 : EventField) (v : Bool) (e : LogEvents) :
    f.Value (f0.Set v e) = if f = f0 then v else f.Value e := by
  cases f <;> cases f0 <;> rfl

/-- What the loop over event names computes, from any starting point: the
recognized names are appended to the applied list and the others to the
failed list, both in input order, and a flag ends up at `v` exactly when its
name occurs in the list, keeping its value otherwise. -/
theorem foldl_eventStep (v : Bool) (names : List String) :
    ∀ s : EventLoop,
      (names.foldl (eventStep v) s).applied
          = s.applied ++ names.filter (fun t => decide (t ∈ eventNames))
      ∧ (names.foldl (eventStep v) s).failed
          = s.failed ++ names.filter (fun t => decide (t ∉ eventNames))
      ∧ ∀ f : EventField,
          f.Value (names.foldl (eventStep v) s).events
            = if f.Name ∈ names then v else f.Value s.events := by
  induction names with
  | nil => intro s; simp
  | cons t ts ih =>
    intro s
    rw [List.foldl_cons]
    obtain ⟨ha, hf, hv⟩ := ih (eventStep v s t)
    rw [ha, hf]
    cases hfo : FieldOk t with
    | none =>
      have hmem : t ∉ eventNames := (fieldOk_none_iff t).1 hfo
      refine ⟨by simp [eventStep, hfo, hmem], by simp [eventStep, hfo, hmem], ?_⟩
      intro f
      rw [hv f]
      have hne : f.Name ≠ t := fun hc => hmem (hc ▸ name_mem_eventNames f)
      simp [eventStep, hfo, hne, setChecked_eq]
    | some f0 =>
      have hn : f0.Name = t := fieldOk_some hfo
      have hmem : t ∈ eventNames := hn ▸ name_mem_eventNames f0
      refine ⟨by simp [eventStep, hfo, hmem], by simp [eventStep, hfo, hmem], ?_⟩
      intro f
      rw [hv f]
      by_cases hft : f.Name = t
      · have : f = f0 := name_injective (hft.trans hn.symm)
        subst this
        simp [eventStep, hfo, hn, value_set, setChecked_eq]
      · have : f ≠ f0 := fun hc => hft (hc ▸ hn)
        simp [eventStep, hfo, hft, value_set, this, setChecked_eq]

/-! ## Enabling and disabling named events -/

theorem eventLoop_spec (v : Bool) (names : List String) (e : LogEvents) :
    (eventLoop v names e).applied = names.filter (fun t => decide (t ∈ eventNames))
    ∧ (eventLoop v names e).failed = names.filter (fun t => decide (t ∉ eventNames))
    ∧ ∀ f : EventField,
        f.Value (eventLoop v names e).events = if f.Name ∈ names then v else f.Value e := by
  have := foldl_eventStep v names { events := e, applied := [], failed := [] }
  simpa [eventLoop] using this

/-- The outcome of the tail of `log enable` on a list of names. -/
theorem serverLogEnableNames_run (env : CommandEnvironment) (st : Stores) (g : GuildSettings)
    (names : List String) :
    serverLogEnableNames ("log" :: "enable" :: names) env st g
      = .ok (NewGenericEmbed "Server Settings - Log"
               (("Successfully enabled logging"
                   ++ (if g.LogSettings.LoggingChannel ≠ "" then "."
                       else " and set the logging channel to this channel."))
                 ++ (if names = [] then "" else "\n" ++ eventReport "Enabled" names)),
             setGuild st env.GuildID
               { g with LogSettings :=
                  { g.LogSettings with
                    LoggingEvents := (eventLoop true names g.LogSettings.LoggingEvents).events } }) := by
  obtain ⟨ha, hf, -⟩ := eventLoop_spec true names g.LogSettings.LoggingEvents
  cases names with
  | nil =>
    by_cases hc : g.LogSettings.LoggingChannel = "" <;>
      simp [serverLogEnableNames, eventLoop, hc, pure_eq_ok]
  | cons t ts =>
    have hr : eventReport "Enabled" (t :: ts)
        = (if (eventLoop true (t :: ts) g.LogSettings.LoggingEvents).applied ≠ [] then
             "\n" ++ "Enabled" ++ " the following events: "
               ++ ", ".intercalate (eventLoop true (t :: ts) g.LogSettings.LoggingEvents).applied
           else "")
          ++ (if (eventLoop true (t :: ts) g.LogSettings.LoggingEvents).failed ≠ [] then
               "\nFailed to find the following events: "
                 ++ ", ".intercalate (eventLoop true (t :: ts) g.LogSettings.LoggingEvents).failed
              else "") := by
      rw [ha, hf]; rfl
    simp only [serverLogEnableNames, pure_eq_ok]
    simp
    rw [hr]
    generalize (eventLoop true (t :: ts) g.LogSettings.LoggingEvents).applied = F
    generalize (eventLoop true (t :: ts) g.LogSettings.LoggingEvents).failed = M
    by_cases hc : g.LogSettings.LoggingChannel = "" <;> cases F <;> cases M <;>
      simp [hc, NewGenericEmbed, Join, ← String.append_assoc]
/-- The outcome of `log disable` on a non-empty list of names other than
the single name `all`. -/
theorem serverLogDisable_run (env : CommandEnvironment) (st : Stores) (g : GuildSettings)
    (t : String) (ts : List String) (hall : t :: ts ≠ ["all"]) :
    serverLogDisable ("log" :: "disable" :: t :: ts) env st g
      = .ok (NewGenericEmbed "Server Settings - Log" (eventReport "Disabled" (t :: ts)),
             setGuild st env.GuildID
               { g with LogSettings :=
                  { g.LogSettings with
                    LoggingEvents :=
                      (eventLoop false (t :: ts) g.LogSettings.LoggingEvents).events } }) := by
  obtain ⟨ha, hf, -⟩ := eventLoop_spec false (t :: ts) g.LogSettings.LoggingEvents
  have hr : eventReport "Disabled" (t :: ts)
      = (if (eventLoop false (t :: ts) g.LogSettings.LoggingEvents).applied ≠ [] then
           "\n" ++ "Disabled" ++ " the following events: "
             ++ ", ".intercalate (eventLoop false (t :: ts) g.LogSettings.LoggingEvents).applied
         else "")
        ++ (if (eventLoop false (t :: ts) g.LogSettings.LoggingEvents).failed ≠ [] then
             "\nFailed to find the following events: "
               ++ ", ".intercalate (eventLoop false (t :: ts) g.LogSettings.LoggingEvents).failed
            else "") := by
    rw [ha, hf]; rfl
  have hcond : ¬ (("log" :: "disable" :: t :: ts).length = 3
      ∧ ("log" :: "disable" :: t :: ts).get? 2 = some "all") := by
    rintro ⟨hl, ht⟩
    simp at hl ht
    exact hall (by rw [hl, ht])
  simp only [serverLogDisable, pure_eq_ok, if_neg hcond]
  simp
  rw [hr]
  generalize (eventLoop false (t :: ts) g.LogSettings.LoggingEvents).applied = F
  generalize (eventLoop false (t :: ts) g.LogSettings.LoggingEvents).failed = M
  cases F <;> cases M <;> simp [NewGenericEmbed, Join, ← String.append_assoc]

/-- Under `log enable`, a list of names other than the single names `all` and
`recommended` reaches the tail that handles names. -/
theorem serverLogEnable_names (env : CommandEnvironment) (st : Stores) (g : GuildSettings)
    (names : List String) (hall : names ≠ ["all"]) (hrec : names ≠ ["recommended"]) :
    serverLogEnable ("log" :: "enable" :: names) env st g
      = serverLogEnableNames ("log" :: "enable" :: names) env st
          { g with LogSettings := { g.LogSettings with LoggingEnabled := true } } := by
  match names, hall, hrec with
  | [], _, _ => simp [serverLogEnable]
  | [t], hall, hrec =>
    have h1 : t ≠ "all" := fun hc => hall (by rw [hc])
    have h2 : t ≠ "recommended" := fun hc => hrec (by rw [hc])
    simp [serverLogEnable, index, ok_bind, h1, h2]
  | _ :: _ :: _, _, _ => simp [serverLogEnable]

/-- C6. For every list of event-name tokens given to `server log enable`
(other than the single tokens `all` and `recommended`) or to
`server log disable` (other than the single token `all`): the
flag of every token that is one of the sixteen `LogEvents` field names is set
to true (resp. false), whatever else the list holds; the response lists the
recognized tokens under "Enabled/Disabled the following events" and the other
tokens under "Failed to find the following events", both in input order. -/
theorem log_names_partition (h : Host) (env : CommandEnvironment) (st : Stores)
    (g : GuildSettings) (names : List String)
    (hg : st.guildSettings env.GuildID = some g) :
    eventNames = EventField.all.map EventField.Name ∧
    (names ≠ ["all"] → names ≠ ["recommended"] →
      ∃ g1,
        commandSettingsServer h ("log" :: "enable" :: names) env st
          = .ok (NewGenericEmbed "Server Settings - Log"
                   (("Successfully enabled logging"
                       ++ (if g.LogSettings.LoggingChannel ≠ "" then "."
                           else " and set the logging channel to this channel."))
                     ++ (if names = [] then "" else "\n" ++ eventReport "Enabled" names)),
                 setGuild st env.GuildID g1)
        ∧ ∀ f : EventField, f.Name ∈ names → f.Value g1.LogSettings.LoggingEvents = true) ∧
    (names ≠ ["all"] →
      ∃ body g1,
        commandSettingsServer h ("log" :: "disable" :: names) env st
          = .ok (NewGenericEmbed "Server Settings - Log" body, setGuild st env.GuildID g1)
        ∧ (names ≠ [] → body = eventReport "Disabled" names)
        ∧ ∀ f : EventField, f.Name ∈ names → f.Value g1.LogSettings.LoggingEvents = false) := by
  refine ⟨eventNames_eq, ?_, ?_⟩
  · intro hall hrec
    refine ⟨{ g with LogSettings :=
        { LoggingEnabled := true, LoggingChannel := g.LogSettings.LoggingChannel,
          LoggingEvents := (eventLoop true names g.LogSettings.LoggingEvents).events } }, ?_, ?_⟩
    · have hrun : commandSettingsServer h ("log" :: "enable" :: names) env st
          = serverLogEnable ("log" :: "enable" :: names) env st g := by
        simp [commandSettingsServer, serverLog, index, guildAt, hg, ok_bind]
      rw [hrun, serverLogEnable_names env st g names hall hrec, serverLogEnableNames_run]
    · intro f hf
      have := (eventLoop_spec true names g.LogSettings.LoggingEvents).2.2 f
      simpa [hf] using this
  · intro hall
    match names, hall with
    | [], _ =>
      refine ⟨"Successfully disabled logging.",
        { g with LogSettings := { g.LogSettings with LoggingEnabled := false } }, ?_,
        fun hc => absurd rfl hc, ?_⟩
      · simp [commandSettingsServer, serverLog, serverLogDisable, index, guildAt, hg, ok_bind,
          pure_eq_ok]
      · intro f hf
        simp at hf
    | t :: ts, hall =>
      refine ⟨eventReport "Disabled" (t :: ts), { g with LogSettings :=
        { g.LogSettings with
          LoggingEvents := (eventLoop false (t :: ts) g.LogSettings.LoggingEvents).events } },
        ?_, fun _ => rfl, ?_⟩
      · have hrun : commandSettingsServer h ("log" :: "disable" :: t :: ts) env st
            = serverLogDisable ("log" :: "disable" :: t :: ts) env st g := by
          simp [commandSettingsServer, serverLog, index, guildAt, hg, ok_bind]
        rw [hrun, serverLogDisable_run env st g t ts hall]
      · intro f hf
        have := (eventLoop_spec false (t :: ts) g.LogSettings.LoggingEvents).2.2 f
        simpa [hf] using this

/-- C6 at the sample guild: a bogus name in front of, between and behind
valid names. -/
theorem log_names_partition_witness :
    demoStores.guildSettings demoEnv.GuildID = some demoGuild ∧
    ∃ body g1,
      commandSettingsServer demoHost
          ["log", "disable", "bogus", "UserUpdate", "nope", "ChannelUpdate", "x"]
          demoEnv demoStores
        = .ok (NewGenericEmbed "Server Settings - Log" body,
               setGuild demoStores demoEnv.GuildID g1)
      ∧ (["bogus", "UserUpdate", "nope", "ChannelUpdate", "x"] ≠ [] →
          body = eventReport "Disabled" ["bogus", "UserUpdate", "nope", "ChannelUpdate", "x"])
      ∧ ∀ f : EventField, f.Name ∈ ["bogus", "UserUpdate", "nope", "ChannelUpdate", "x"] →
          f.Value g1.LogSettings.LoggingEvents = false :=
  ⟨by decide,
    (log_names_partition demoHost demoEnv demoStores demoGuild
      ["bogus", "UserUpdate", "nope", "ChannelUpdate", "x"] (by decide)).2.2 (by decide)⟩

/-! ## Resets, the command override and the top-level switches -/

/-- C7. For every prior community record, `server reset filter` returns the
success response, and afterwards every swear-filter sub-field holds its
default: `Enabled` false, `BlacklistedWords` empty, the five normalization
toggles false, `WarningDeleteTimeout` 0 and both bypass flags false. -/
theorem reset_filter_defaults (h : Host) (env : CommandEnvironment) (st : Stores)
    (g : GuildSettings) (hg : st.guildSettings env.GuildID = some g) :
    ∃ st1 g1,
      commandSettingsServer h ["reset", "filter"] env st
        = .ok (NewGenericEmbed "Server Settings - Reset"
                 "Successfully reset the settings for \x60\x60filter\x60\x60.", st1)
      ∧ (NewGenericEmbed "Server Settings - Reset"
           "Successfully reset the settings for \x60\x60filter\x60\x60.").isError = false
      ∧ st1.guildSettings env.GuildID = some g1
      ∧ g1.SwearFilter =
          { Enabled := false, BlacklistedWords := [], DisableNormalize := false,
            DisableSpacedTab := false, DisableMultiWhitespaceStripping := false,
            DisableZeroWidthStripping := false, DisableSpacedBypass := false,
            WarningDeleteTimeout := 0, AllowAdminBypass := false,
            AllowBotOwnerBypass := false } := by
  refine ⟨setGuild st env.GuildID { g with SwearFilter :=
      { Enabled := false, BlacklistedWords := [], DisableNormalize := false,
        DisableSpacedTab := false, DisableMultiWhitespaceStripping := false,
        DisableZeroWidthStripping := false, DisableSpacedBypass := false,
        WarningDeleteTimeout := 0, AllowAdminBypass := false,
        AllowBotOwnerBypass := false } }, _, ?_, rfl, setGuild_same _ _ _, rfl⟩
  simp [commandSettingsServer, serverReset, index, guildAt, hg, ok_bind, pure_eq_ok]

/-- C7 at the sample guild, none of whose filter fields holds its default. -/
theorem reset_filter_defaults_witness :
    demoStores.guildSettings demoEnv.GuildID = some demoGuild ∧
    ∃ st1 g1,
      commandSettingsServer demoHost ["reset", "filter"] demoEnv demoStores
        = .ok (NewGenericEmbed "Server Settings - Reset"
                 "Successfully reset the settings for \x60\x60filter\x60\x60.", st1)
      ∧ (NewGenericEmbed "Server Settings - Reset"
           "Successfully reset the settings for \x60\x60filter\x60\x60.").isError = false
      ∧ st1.guildSettings demoEnv.GuildID = some g1
      ∧ g1.SwearFilter =
          { Enabled := false, BlacklistedWords := [], DisableNormalize := false,
            DisableSpacedTab := false, DisableMultiWhitespaceStripping := false,
            DisableZeroWidthStripping := false, DisableSpacedBypass := false,
            WarningDeleteTimeout := 0, AllowAdminBypass := false,
            AllowBotOwnerBypass := false } :=
  ⟨by decide, reset_filter_defaults demoHost demoEnv demoStores demoGuild (by decide)⟩

/-- C8. For every community record, `bot prefix p` with `p` the global
default stores the empty override, and a following `bot prefix` query
reports the global default. -/
theorem default_clears_override (h : Host) (env : CommandEnvironment) (st : Stores)
    (g : GuildSettings) (hg : st.guildSettings env.GuildID = some g) :
    commandSettingsBot h ["prefix", h.CommandPrefix] env st
      = .ok (NewGenericEmbed "Bot Settings - Command Prefix"
               ("Successfully set the command prefix to \x60\x60"
                 ++ escapeBackticks h.CommandPrefix ++ "\x60\x60."),
             setGuild st env.GuildID { g with BotPrefix := "" }) ∧
    ((setGuild st env.GuildID { g with BotPrefix := "" }).guildSettings env.GuildID).map
        (fun r => GuildSettings.BotPrefix r) = some "" ∧
    commandSettingsBot h ["prefix"] env (setGuild st env.GuildID { g with BotPrefix := "" })
      = .ok (NewGenericEmbed "Bot Settings - Command Prefix"
               ("Current command prefix:\n\n" ++ h.CommandPrefix),
             setGuild st env.GuildID { g with BotPrefix := "" }) := by
  refine ⟨?_, ?_, ?_⟩
  · simp [commandSettingsBot, index, guildAt, hg, ok_bind, pure_eq_ok]
  · simp [setGuild]
  · simp [commandSettingsBot, index, guildAt, setGuild, ok_bind, pure_eq_ok]

/-- C8 at the sample guild, whose override is `!` beforehand. -/
theorem default_clears_override_witness :
    demoStores.guildSettings demoEnv.GuildID = some demoGuild ∧
    commandSettingsBot demoHost ["prefix"] demoEnv
        (setGuild demoStores demoEnv.GuildID { demoGuild with BotPrefix := "" })
      = .ok (NewGenericEmbed "Bot Settings - Command Prefix"
               ("Current command prefix:\n\n" ++ demoHost.CommandPrefix),
             setGuild demoStores demoEnv.GuildID { demoGuild with BotPrefix := "" }) :=
  ⟨by decide,
    (default_clears_override demoHost demoEnv demoStores demoGuild (by decide)).2.2⟩

/-- C9, as stated, fails: on the empty token list each of the three routers
reads `args[0]` and faults, no response is returned. -/
theorem empty_tokens_fault_sample :
    commandSettingsBot demoHost [] demoEnv demoStores = .error .indexOutOfRange ∧
    commandSettingsUser demoHost [] demoEnv demoStores = .error .indexOutOfRange ∧
    commandSettingsServer demoHost [] demoEnv demoStores = .error .indexOutOfRange :=
  ⟨rfl, rfl, rfl⟩

/-- C9, amended. The three routers read the first token unconditionally, so
the empty token list is a fault for each of them. The usage/help response is
what the nested nodes return when no token follows their selector:
`user social` (or `socials`), `server invitegen`, `server filter` and
`server log` answer with the usage of their help command and leave the stores
as they were. -/
theorem empty_tokens_and_nested_usage (h : Host) (env : CommandEnvironment) (st : Stores) :
    (commandSettingsBot h [] env st = .error .indexOutOfRange
      ∧ commandSettingsUser h [] env st = .error .indexOutOfRange
      ∧ commandSettingsServer h [] env st = .error .indexOutOfRange) ∧
    (∀ a0, a0 ∈ ["social", "socials"] →
      commandSettingsUser h [a0] env st
        = .ok (getCustomCommandUsage socialCommand ("user " ++ a0)
                 "User Settings - Socials Help" env, st)) ∧
    commandSettingsServer h ["invitegen"] env st
      = .ok (getCustomCommandUsage invitegenHelpCmd "server invitegen"
               "Server Settings - API Invite Generation Help" env, st) ∧
    commandSettingsServer h ["filter"] env st
      = .ok (getCustomCommandUsage filterHelpCmd "server filter"
               "Server Settings - Swear Filter Help" env, st) ∧
    commandSettingsServer h ["log"] env st
      = .ok (getCustomCommandUsage logHelpCmd "server log" "Server Settings - Log Help" env, st) ∧
    (∀ cmd name title, (getCustomCommandUsage cmd name title env).isUsage = true) := by
  refine ⟨⟨rfl, rfl, rfl⟩, ?_, ?_, ?_, ?_, fun _ _ _ => rfl⟩
  · intro a0 ha
    simp only [List.mem_cons, List.mem_singleton, List.not_mem_nil, or_false] at ha
    rcases ha with ha | ha <;> subst ha <;>
      simp [commandSettingsUser, userSocial, index, ok_bind, pure_eq_ok]
  · simp [commandSettingsServer, serverInvitegen, index, ok_bind, pure_eq_ok]
  · simp [commandSettingsServer, serverFilter, index, ok_bind, pure_eq_ok]
  · simp [commandSettingsServer, serverLog, index, ok_bind, pure_eq_ok]

/-- C10. For every non-empty token list whose first token is not one of the
selectors of the router, each of `commandSettingsBot`, `commandSettingsUser`
and `commandSettingsServer` returns the error response whose body names that
first token, and leaves both stores as they were. -/
theorem unknown_selector_error (h : Host) (env : CommandEnvironment) (st : Stores)
    (a0 : String) (rest : List String) :
    (a0 ≠ "prefix" →
      commandSettingsBot h (a0 :: rest) env st
        = .ok (NewErrorEmbed "Bot Settings Error"
                 ("Error finding the setting \x60\x60" ++ a0 ++ "\x60\x60."), st)) ∧
    (a0 ∉ ["about", "aboutme", "description", "desc", "info", "timezone", "tz",
           "social", "socials"] →
      commandSettingsUser h (a0 :: rest) env st
        = .ok (NewErrorEmbed "User Settings Error"
                 ("Error finding the setting \x60\x60" ++ a0 ++ "\x60\x60."), st)) ∧
    (a0 ∉ ["joinmsg", "leavemsg", "tips", "autosendnowplaying", "invitegen", "filter",
           "log", "reset"] →
      commandSettingsServer h (a0 :: rest) env st
        = .ok (NewErrorEmbed "Server Settings Error"
                 ("Error finding the setting \x60\x60" ++ a0 ++ "\x60\x60."), st)) ∧
    (NewErrorEmbed "Bot Settings Error"
        ("Error finding the setting \x60\x60" ++ a0 ++ "\x60\x60.")).isError = true := by
  refine ⟨?_, ?_, ?_, rfl⟩
  · intro hsel
    simp [commandSettingsBot, index, ok_bind, pure_eq_ok, hsel]
  · intro hsel
    simp at hsel
    simp [commandSettingsUser, index, ok_bind, pure_eq_ok, hsel]
  · intro hsel
    simp at hsel
    simp [commandSettingsServer, index, ok_bind, pure_eq_ok, hsel]

/-- C10 at the token `Prefix`, which differs from every selector by case or
altogether. -/
theorem unknown_selector_error_witness :
    commandSettingsBot demoHost ["Prefix", "!"] demoEnv demoStores
      = .ok (NewErrorEmbed "Bot Settings Error"
               ("Error finding the setting \x60\x60" ++ "Prefix" ++ "\x60\x60."), demoStores) ∧
    commandSettingsUser demoHost ["Prefix", "!"] demoEnv demoStores
      = .ok (NewErrorEmbed "User Settings Error"
               ("Error finding the setting \x60\x60" ++ "Prefix" ++ "\x60\x60."), demoStores) ∧
    commandSettingsServer demoHost ["Prefix", "!"] demoEnv demoStores
      = .ok (NewErrorEmbed "Server Settings Error"
               ("Error finding the setting \x60\x60" ++ "Prefix" ++ "\x60\x60."), demoStores) :=
  ⟨(unknown_selector_error demoHost demoEnv demoStores "Prefix" ["!"]).1 (by decide),
    (unknown_selector_error demoHost demoEnv demoStores "Prefix" ["!"]).2.1 (by decide),
    (unknown_selector_error demoHost demoEnv demoStores "Prefix" ["!"]).2.2.1 (by decide)⟩

/-! ## No mutation on error -/

theorem keeps_fault (st : Stores) (e : Fault) : KeepsStoresOnError st (.error e) := by
  intro resp st1 hrun
  exact Except.noConfusion hrun

theorem keeps_same (st : Stores) (r : MessageEmbed) : KeepsStoresOnError st (pure (r, st)) := by
  intro resp st1 hrun _
  cases hrun
  rfl

theorem keeps_generic (st st1 : Stores) (title body : String) :
    KeepsStoresOnError st (pure (NewGenericEmbed title body, st1)) := by
  intro resp st2 hrun herr
  cases hrun
  exact Bool.noConfusion herr

theorem keeps_bind {α : Type} (st : Stores) (x : Except Fault α) (f : α → Outcome)
    (hf : ∀ a, KeepsStoresOnError st (f a)) : KeepsStoresOnError st (x >>= f) := by
  cases x with
  | error e => exact keeps_fault st e
  | ok a => exact hf a

theorem keeps_ite (st : Stores) (c : Prop) [Decidable c] (a b : Outcome)
    (ha : KeepsStoresOnError st a) (hb : KeepsStoresOnError st b) :
    KeepsStoresOnError st (if c then a else b) := by
  split
  · exact ha
  · exact hb

theorem commandSettingsBot_keeps (h : Host) (args : List String) (env : CommandEnvironment)
    (st : Stores) : KeepsStoresOnError st (commandSettingsBot h args env st) := by
  unfold commandSettingsBot
  repeat' first
    | apply keeps_ite
    | (apply keeps_bind; intro _)
    | apply keeps_same
    | apply keeps_generic

theorem userAbout_keeps (h : Host) (args : List String) (env : CommandEnvironment)
    (st : Stores) : KeepsStoresOnError st (userAbout h args env st) := by
  unfold userAbout
  repeat' first
    | apply keeps_ite
    | (apply keeps_bind; intro _)
    | apply keeps_same
    | apply keeps_generic

theorem userTimezone_keeps (h : Host) (args : List String) (env : CommandEnvironment)
    (st : Stores) : KeepsStoresOnError st (userTimezone h args env st) := by
  unfold userTimezone
  repeat' first
    | apply keeps_ite
    | (apply keeps_bind; intro _)
    | apply keeps_same
    | apply keeps_generic
    | split

theorem userSocialSet_keeps (h : Host) (args : List String) (env : CommandEnvironment)
    (st : Stores) : KeepsStoresOnError st (userSocialSet h args env st) := by
  unfold userSocialSet
  repeat' first
    | apply keeps_ite
    | (apply keeps_bind; intro _)
    | apply keeps_same
    | apply keeps_generic
    | split

theorem userSocialList_keeps (env : CommandEnvironment)
    (st : Stores) : KeepsStoresOnError st (userSocialList env st) := by
  unfold userSocialList
  repeat' first
    | apply keeps_ite
    | (apply keeps_bind; intro _)
    | apply keeps_same

theorem userSocialClear_keeps (cmdUsage : MessageEmbed) (args : List String) (env : CommandEnvironment)
    (st : Stores) : KeepsStoresOnError st (userSocialClear cmdUsage args env st) := by
  unfold userSocialClear
  repeat' first
    | apply keeps_ite
    | (apply keeps_bind; intro _)
    | apply keeps_same
    | apply keeps_generic

theorem userSocial_keeps (h : Host) (a0 : String) (args : List String) (env : CommandEnvironment)
    (st : Stores) : KeepsStoresOnError st (userSocial h a0 args env st) := by
  unfold userSocial
  repeat' first
    | apply userSocialSet_keeps
    | apply userSocialList_keeps
    | apply userSocialClear_keeps
    | apply keeps_ite
    | (apply keeps_bind; intro _)
    | apply keeps_same

theorem commandSettingsUser_keeps (h : Host) (args : List String) (env : CommandEnvironment)
    (st : Stores) : KeepsStoresOnError st (commandSettingsUser h args env st) := by
  unfold commandSettingsUser
  repeat' first
    | apply userAbout_keeps
    | apply userTimezone_keeps
    | apply userSocial_keeps
    | apply keeps_ite
    | (apply keeps_bind; intro _)
    | apply keeps_same

theorem serverTips_keeps (args : List String) (env : CommandEnvironment)
    (st : Stores) : KeepsStoresOnError st (serverTips args env st) := by
  unfold serverTips
  repeat' first
    | apply keeps_ite
    | (apply keeps_bind; intro _)
    | apply keeps_same
    | apply keeps_generic

theorem serverAutoSendNowPlaying_keeps (args : List String) (env : CommandEnvironment)
    (st : Stores) : KeepsStoresOnError st (serverAutoSendNowPlaying args env st) := by
  unfold serverAutoSendNowPlaying
  repeat' first
    | apply keeps_ite
    | (apply keeps_bind; intro _)
    | apply keeps_same
    | apply keeps_generic

theorem serverInvitegen_keeps (args : List String) (env : CommandEnvironment)
    (st : Stores) : KeepsStoresOnError st (serverInvitegen args env st) := by
  unfold serverInvitegen
  repeat' first
    | apply keeps_ite
    | (apply keeps_bind; intro _)
    | apply keeps_same
    | apply keeps_generic

theorem serverFilterWords_keeps (h : Host) (a1 : String) (args : List String) (env : CommandEnvironment)
    (st : Stores) : KeepsStoresOnError st (serverFilterWords h a1 args env st) := by
  unfold serverFilterWords
  repeat' first
    | apply keeps_ite
    | (apply keeps_bind; intro _)
    | apply keeps_same
    | apply keeps_generic

theorem serverFilterTimeout_keeps (args : List String) (env : CommandEnvironment)
    (st : Stores) : KeepsStoresOnError st (serverFilterTimeout args env st) := by
  unfold serverFilterTimeout
  repeat' first
    | apply keeps_ite
    | (apply keeps_bind; intro _)
    | apply keeps_same
    | apply keeps_generic
    | split

theorem serverFilter_keeps (h : Host) (args : List String) (env : CommandEnvironment)
    (st : Stores) : KeepsStoresOnError st (serverFilter h args env st) := by
  unfold serverFilter
  repeat' first
    | apply serverFilterWords_keeps
    | apply serverFilterTimeout_keeps
    | apply keeps_ite
    | (apply keeps_bind; intro _)
    | apply keeps_same
    | apply keeps_generic

theorem serverLogEnableNames_keeps (args : List String) (env : CommandEnvironment) (g : GuildSettings)
    (st : Stores) : KeepsStoresOnError st (serverLogEnableNames args env st g) := by
  unfold serverLogEnableNames
  repeat' first
    | apply keeps_ite
    | apply keeps_same
    | apply keeps_generic

theorem serverLogEnable_keeps (args : List String) (env : CommandEnvironment) (g : GuildSettings)
    (st : Stores) : KeepsStoresOnError st (serverLogEnable args env st g) := by
  unfold serverLogEnable
  simp only [setAllLoop_all, Bool.false_eq_true, if_false]
  repeat' first
    | apply serverLogEnableNames_keeps
    | apply keeps_ite
    | (apply keeps_bind; intro _)
    | apply keeps_same
    | apply keeps_generic

theorem serverLogDisable_keeps (args : List String) (env : CommandEnvironment) (g : GuildSettings)
    (st : Stores) : KeepsStoresOnError st (serverLogDisable args env st g) := by
  unfold serverLogDisable
  repeat' first
    | apply keeps_ite
    | apply keeps_same
    | apply keeps_generic

theorem serverLog_keeps (args : List String) (env : CommandEnvironment)
    (st : Stores) : KeepsStoresOnError st (serverLog args env st) := by
  unfold serverLog
  repeat' first
    | apply serverLogEnable_keeps
    | apply serverLogDisable_keeps
    | apply keeps_ite
    | (apply keeps_bind; intro _)
    | apply keeps_same
    | apply keeps_generic

theorem serverReset_keeps (args : List String) (env : CommandEnvironment)
    (st : Stores) : KeepsStoresOnError st (serverReset args env st) := by
  unfold serverReset
  repeat' first
    | apply keeps_ite
    | (apply keeps_bind; intro _)
    | apply keeps_same
    | apply keeps_generic

theorem commandSettingsServer_keeps (h : Host) (args : List String) (env : CommandEnvironment)
    (st : Stores) : KeepsStoresOnError st (commandSettingsServer h args env st) := by
  unfold commandSettingsServer
  repeat' first
    | apply serverTips_keeps
    | apply serverAutoSendNowPlaying_keeps
    | apply serverInvitegen_keeps
    | apply serverFilter_keeps
    | apply serverLog_keeps
    | apply serverReset_keeps
    | apply keeps_ite
    | (apply keeps_bind; intro _)
    | apply keeps_same
    | apply keeps_generic
/-- C11. For every host (so for every timezone resolver and every NNID
existence check), token list, request context and prior stores: whenever one
of the three routers returns an error response, the community and user
stores it leaves are the stores it was called with. The one place where a
write precedes an error return, the loop of `log enable all`, never takes
that return. -/
theorem no_mutation_on_error (h : Host) (args : List String) (env : CommandEnvironment)
    (st : Stores) (resp : MessageEmbed) (st1 : Stores) :
    (commandSettingsBot h args env st = .ok (resp, st1) → resp.isError = true → st1 = st) ∧
    (commandSettingsUser h args env st = .ok (resp, st1) → resp.isError = true → st1 = st) ∧
    (commandSettingsServer h args env st = .ok (resp, st1) → resp.isError = true → st1 = st) :=
  ⟨commandSettingsBot_keeps h args env st resp st1,
    commandSettingsUser_keeps h args env st resp st1,
    commandSettingsServer_keeps h args env st resp st1⟩

/-- C11 at `server filter timeout abc` on the sample stores: the call
returns an error response, and the stores it leaves are the sample stores. -/
theorem no_mutation_on_error_witness :
    ∃ resp st1,
      commandSettingsServer demoHost ["filter", "timeout", "abc"] demoEnv demoStores
        = .ok (resp, st1)
      ∧ resp.isError = true ∧ st1 = demoStores := by
  have hrun : commandSettingsServer demoHost ["filter", "timeout", "abc"] demoEnv demoStores
      = .ok (NewErrorEmbed "Server Settings - Swear Filter Error"
          "\x60\x60abc\x60\x60 is not a valid number.", demoStores) := by
    have ha : Atoi "abc" = none := by decide
    simp [commandSettingsServer, serverFilter, serverFilterTimeout, index, ok_bind, pure_eq_ok, ha]
  exact ⟨_, _, hrun, rfl,
    (no_mutation_on_error demoHost ["filter", "timeout", "abc"] demoEnv demoStores _ _).2.2
      hrun rfl⟩

/-! ## Selectors without further tokens, and synonyms -/

/-- C12. The one-token list `autosendnowplaying` makes `commandSettingsServer`
read `args[1]` past the end of the list: the call faults and returns no
response, for every host, context and stores. Its sibling `tips` checks the
length first and answers the same shape of request. -/
theorem autosendnowplaying_alone_faults (h : Host) (env : CommandEnvironment) (st : Stores) :
    commandSettingsServer h ["autosendnowplaying"] env st = .error .indexOutOfRange ∧
    commandSettingsServer demoHost ["tips"] demoEnv demoStores
      = .ok (NewGenericEmbed "Server Settings - Tips" "Tips are disabled for this server.",
          demoStores) := by
  constructor
  · simp [commandSettingsServer, serverAutoSendNowPlaying, index, error_bind, ok_bind]
  · have hg : demoStores.guildSettings demoEnv.GuildID = some demoGuild := by decide
    have ht : demoGuild.TipsChannel = "" := by decide
    simp [commandSettingsServer, serverTips, index, guildAt, hg, ht, ok_bind, pure_eq_ok]

theorem userAbout_head (h : Host) (a b : String) (tail : List String)
    (env : CommandEnvironment) (st : Stores) :
    userAbout h (a :: tail) env st = userAbout h (b :: tail) env st := by
  simp [userAbout]

theorem userTimezone_head (h : Host) (a b : String) (tail : List String)
    (env : CommandEnvironment) (st : Stores) :
    userTimezone h (a :: tail) env st = userTimezone h (b :: tail) env st := by
  simp [userTimezone, index]

/-- C13. For every tail of tokens, request context and prior stores,
`commandSettingsUser` gives the same outcome (response and resulting stores,
or fault) for any two first tokens among `about`, `aboutme`, `description`,
`desc` and `info`, and likewise for `timezone` and `tz`. -/
theorem synonym_selectors (h : Host) (env : CommandEnvironment) (st : Stores)
    (a b : String) (tail : List String) :
    (a ∈ ["about", "aboutme", "description", "desc", "info"] →
      b ∈ ["about", "aboutme", "description", "desc", "info"] →
      commandSettingsUser h (a :: tail) env st = commandSettingsUser h (b :: tail) env st) ∧
    (a ∈ ["timezone", "tz"] → b ∈ ["timezone", "tz"] →
      commandSettingsUser h (a :: tail) env st = commandSettingsUser h (b :: tail) env st) := by
  have habout : ∀ x, x ∈ ["about", "aboutme", "description", "desc", "info"] →
      commandSettingsUser h (x :: tail) env st = userAbout h (x :: tail) env st := by
    intro x hx
    simp only [List.mem_cons, List.mem_singleton, List.not_mem_nil, or_false] at hx
    rcases hx with hx | hx | hx | hx | hx <;> subst hx <;>
      simp [commandSettingsUser, index, ok_bind]
  have htz : ∀ x, x ∈ ["timezone", "tz"] →
      commandSettingsUser h (x :: tail) env st = userTimezone h (x :: tail) env st := by
    intro x hx
    simp only [List.mem_cons, List.mem_singleton, List.not_mem_nil, or_false] at hx
    rcases hx with hx | hx <;> subst hx <;>
      simp [commandSettingsUser, index, ok_bind]
  constructor
  · intro ha hb
    rw [habout a ha, habout b hb, userAbout_head h a b]
  · intro ha hb
    rw [htz a ha, htz b hb, userTimezone_head h a b]

/-- C13 at `desc` against `info`, and `tz` against `timezone`, with the tail
`hello world`, resp. `Mars/Base`. -/
theorem synonym_selectors_witness :
    commandSettingsUser demoHost ["desc", "hello", "world"] demoEnv demoStores
      = commandSettingsUser demoHost ["info", "hello", "world"] demoEnv demoStores ∧
    commandSettingsUser demoHost ["tz", "Mars/Base"] demoEnv demoStores
      = commandSettingsUser demoHost ["timezone", "Mars/Base"] demoEnv demoStores :=
  ⟨(synonym_selectors demoHost demoEnv demoStores "desc" "info" ["hello", "world"]).1
      (by decide) (by decide),
    (synonym_selectors demoHost demoEnv demoStores "tz" "timezone" ["Mars/Base"]).2
      (by decide) (by decide)⟩

/-! ## The timeout validator -/

theorem parseDigits_eq (ds : List Char) :
    ∀ acc : Nat,
      parseDigits ds acc
        = if ds.all Char.isDigit = true then
            some (ds.foldl (fun a c => a * 10 + (c.toNat - 48)) acc)
          else none := by
  induction ds with
  | nil => intro acc; simp [parseDigits]
  | cons c cs ih =>
    intro acc
    by_cases hc : c.isDigit = true
    · have hc1 := (isDigit_iff c).1 hc
      simp [parseDigits, hc1, ih, hc]
    · have hc1 : ¬ (48 ≤ c.toNat ∧ c.toNat ≤ 57) := fun hh => hc ((isDigit_iff c).2 hh)
      simp [parseDigits, hc1, hc]

/-- `strconv.Atoi` accepts exactly the base-10 integers that fit in a 64-bit
`int`, and returns the integer the token denotes. -/
theorem atoi_eq (t : String) :
    Atoi t
      = match base10Integer t with
        | some n => if -(2 : Int) ^ 63 ≤ n ∧ n < (2 : Int) ^ 63 then some n else none
        | none => none := by
  unfold Atoi base10Integer
  simp only [parseDigits_eq, digitsValue]
  split <;> (split_ifs <;> simp_all)
/-- The outcome of `server filter timeout t` when `strconv.Atoi` rejects `t`. -/
theorem filter_timeout_rejected (h : Host) (env : CommandEnvironment) (st : Stores)
    (t : String) (ha : Atoi t = none) :
    commandSettingsServer h ["filter", "timeout", t] env st
      = .ok (NewErrorEmbed "Server Settings - Swear Filter Error"
               ("\x60\x60" ++ t ++ "\x60\x60 is not a valid number."), st) := by
  simp [commandSettingsServer, serverFilter, serverFilterTimeout, index, ok_bind, pure_eq_ok, ha]

/-- The outcome of `server filter timeout t` when `strconv.Atoi` accepts `t`. -/
theorem filter_timeout_accepted (h : Host) (env : CommandEnvironment) (st : Stores)
    (g : GuildSettings) (t : String) (n : Int)
    (hg : st.guildSettings env.GuildID = some g) (ha : Atoi t = some n) :
    commandSettingsServer h ["filter", "timeout", t] env st
      = .ok (NewGenericEmbed "Server Settings - Swear Filter"
               ("Successfully set he timeout for deleting warning messages to " ++ t
                 ++ " seconds."),
             setGuild st env.GuildID
               { g with SwearFilter := { g.SwearFilter with WarningDeleteTimeout := n } }) := by
  simp [commandSettingsServer, serverFilter, serverFilterTimeout, index, guildAt, hg, ok_bind,
    pure_eq_ok, ha]

/-- The outcome of the query `server filter timeout`. -/
theorem filter_timeout_query (h : Host) (env : CommandEnvironment) (st : Stores)
    (g : GuildSettings) (hg : st.guildSettings env.GuildID = some g) :
    commandSettingsServer h ["filter", "timeout"] env st
      = .ok (NewGenericEmbed "Server Settings - Swear Filter"
               (if g.SwearFilter.WarningDeleteTimeout = 0 then
                  "The timeout for deleting warning messages is disabled."
                else
                  "The current timeout for deleting warning messages is set to "
                    ++ Itoa g.SwearFilter.WarningDeleteTimeout ++ " seconds."), st) := by
  by_cases hz : g.SwearFilter.WarningDeleteTimeout = 0 <;>
    simp [commandSettingsServer, serverFilter, serverFilterTimeout, index, guildAt, hg, hz,
      ok_bind, pure_eq_ok]

/-- C14, as stated, fails: the token `9223372036854775808` is the base-10
integer 2^63, yet `server filter timeout 9223372036854775808` is answered
with the "not a valid number" error and leaves the timeout of the sample
guild at 5, because the value does not fit in Go's `int`. -/
theorem timeout_out_of_range_rejected :
    base10Integer "9223372036854775808" = some 9223372036854775808 ∧
    commandSettingsServer demoHost ["filter", "timeout", "9223372036854775808"]
        demoEnv demoStores
      = .ok (NewErrorEmbed "Server Settings - Swear Filter Error"
               "\x60\x609223372036854775808\x60\x60 is not a valid number.", demoStores) ∧
    (demoStores.guildSettings demoEnv.GuildID).map
        (fun g => g.SwearFilter.WarningDeleteTimeout) = some 5 := by
  have hb : base10Integer "9223372036854775808" = some 9223372036854775808 := by decide
  have ha : Atoi "9223372036854775808" = none := by
    rw [atoi_eq, hb]
    decide
  refine ⟨hb, ?_, by decide⟩
  rw [filter_timeout_rejected demoHost demoEnv demoStores _ ha]
  rfl

/-- C14, amended. For every token `t` given to `server filter timeout t`:
if `t` is a base-10 integer `n` that fits in a 64-bit `int`
(−2^63 ≤ n < 2^63), the command returns a success response,
`WarningDeleteTimeout` becomes `n`, and a following `server filter timeout`
query reports "disabled" exactly when `n = 0` and otherwise reports `n`
seconds; if `t` is not a base-10 integer, or is one outside that range, the
error response naming `t` is returned and the stores are unchanged. -/
theorem timeout_validator (h : Host) (env : CommandEnvironment) (st : Stores)
    (g : GuildSettings) (t : String) (hg : st.guildSettings env.GuildID = some g) :
    (∀ n : Int, base10Integer t = some n → -(2 : Int) ^ 63 ≤ n → n < (2 : Int) ^ 63 →
      ∃ resp st1 g1,
        commandSettingsServer h ["filter", "timeout", t] env st = .ok (resp, st1)
        ∧ resp.isError = false
        ∧ st1.guildSettings env.GuildID = some g1
        ∧ g1.SwearFilter.WarningDeleteTimeout = n
        ∧ commandSettingsServer h ["filter", "timeout"] env st1
            = .ok (NewGenericEmbed "Server Settings - Swear Filter"
                     (if n = 0 then "The timeout for deleting warning messages is disabled."
                      else
                        "The current timeout for deleting warning messages is set to "
                          ++ Itoa n ++ " seconds."), st1)) ∧
    ((base10Integer t = none
        ∨ ∃ n : Int, base10Integer t = some n ∧ ¬ (-(2 : Int) ^ 63 ≤ n ∧ n < (2 : Int) ^ 63)) →
      commandSettingsServer h ["filter", "timeout", t] env st
        = .ok (NewErrorEmbed "Server Settings - Swear Filter Error"
                 ("\x60\x60" ++ t ++ "\x60\x60 is not a valid number."), st)) := by
  constructor
  · intro n hb hlo hhi
    have ha : Atoi t = some n := by
      rw [atoi_eq, hb]
      exact if_pos ⟨hlo, hhi⟩
    refine ⟨_, _, _, filter_timeout_accepted h env st g t n hg ha, rfl, setGuild_same _ _ _,
      rfl, ?_⟩
    exact filter_timeout_query h env _ _ (setGuild_same _ _ _)
  · intro hbad
    have ha : Atoi t = none := by
      rw [atoi_eq]
      rcases hbad with hb | ⟨n, hb, hr⟩
      · rw [hb]
      · rw [hb]
        exact if_neg hr
    exact filter_timeout_rejected h env st t ha

/-- C14, amended, at the tokens `-0`, `+42` and `4x2` on the sample guild. -/
theorem timeout_validator_witness :
    demoStores.guildSettings demoEnv.GuildID = some demoGuild ∧
    (∃ resp st1 g1,
      commandSettingsServer demoHost ["filter", "timeout", "-0"] demoEnv demoStores
        = .ok (resp, st1)
      ∧ resp.isError = false
      ∧ st1.guildSettings demoEnv.GuildID = some g1
      ∧ g1.SwearFilter.WarningDeleteTimeout = 0
      ∧ commandSettingsServer demoHost ["filter", "timeout"] demoEnv st1
          = .ok (NewGenericEmbed "Server Settings - Swear Filter"
                   (if (0 : Int) = 0 then "The timeout for deleting warning messages is disabled."
                    else
                      "The current timeout for deleting warning messages is set to "
                        ++ Itoa 0 ++ " seconds."), st1)) ∧
    (∃ resp st1 g1,
      commandSettingsServer demoHost ["filter", "timeout", "+42"] demoEnv demoStores
        = .ok (resp, st1)
      ∧ resp.isError = false
      ∧ st1.guildSettings demoEnv.GuildID = some g1
      ∧ g1.SwearFilter.WarningDeleteTimeout = 42
      ∧ commandSettingsServer demoHost ["filter", "timeout"] demoEnv st1
          = .ok (NewGenericEmbed "Server Settings - Swear Filter"
                   (if (42 : Int) = 0 then "The timeout for deleting warning messages is disabled."
                    else
                      "The current timeout for deleting warning messages is set to "
                        ++ Itoa 42 ++ " seconds."), st1)) ∧
    commandSettingsServer demoHost ["filter", "timeout", "4x2"] demoEnv demoStores
      = .ok (NewErrorEmbed "Server Settings - Swear Filter Error"
               ("\x60\x60" ++ "4x2" ++ "\x60\x60 is not a valid number."), demoStores) :=
  ⟨by decide,
    (timeout_validator demoHost demoEnv demoStores demoGuild "-0" (by decide)).1 0
      (by decide) (by decide) (by decide),
    (timeout_validator demoHost demoEnv demoStores demoGuild "+42" (by decide)).1 42
      (by decide) (by decide) (by decide),
    (timeout_validator demoHost demoEnv demoStores demoGuild "4x2" (by decide)).2
      (Or.inl (by decide))⟩

/-! ## Resets and the join and leave messages -/

/-- C15, as stated, fails for the selector `filter`, which is none of
`joinmsg`, `leavemsg`, `log`, `invitegen`: `server reset filter` returns the
success response, not an error naming `filter`, and changes the record. -/
theorem reset_filter_is_no_error :
    "filter" ∉ ["joinmsg", "leavemsg", "log", "invitegen"] ∧
    (∃ st1,
      commandSettingsServer demoHost ["reset", "filter"] demoEnv demoStores
        = .ok (NewGenericEmbed "Server Settings - Reset"
                 "Successfully reset the settings for \x60\x60filter\x60\x60.", st1)
      ∧ st1.guildSettings demoEnv.GuildID ≠ demoStores.guildSettings demoEnv.GuildID) ∧
    commandSettingsServer demoHost ["reset", "filter"] demoEnv demoStores
      ≠ .ok (NewErrorEmbed "Server Settings - Reset Error"
               "Error finding the setting \x60\x60filter\x60\x60.", demoStores) := by
  have hg : demoStores.guildSettings demoEnv.GuildID = some demoGuild := by decide
  have hrun : commandSettingsServer demoHost ["reset", "filter"] demoEnv demoStores
      = .ok (NewGenericEmbed "Server Settings - Reset"
          "Successfully reset the settings for \x60\x60filter\x60\x60.",
          setGuild demoStores demoEnv.GuildID { demoGuild with SwearFilter :=
            { Enabled := false, BlacklistedWords := [], DisableNormalize := false,
              DisableSpacedTab := false, DisableMultiWhitespaceStripping := false,
              DisableZeroWidthStripping := false, DisableSpacedBypass := false,
              WarningDeleteTimeout := 0, AllowAdminBypass := false,
              AllowBotOwnerBypass := false } }) := by
    simp [commandSettingsServer, serverReset, index, guildAt, hg, ok_bind, pure_eq_ok]
  refine ⟨by decide, ⟨_, hrun, ?_⟩, ?_⟩
  · rw [setGuild_same, hg]
    decide
  · rw [hrun]
    simp [NewGenericEmbed, NewErrorEmbed]

/-- C15, amended. On a provisioned record, `server reset X` for `X` among
`joinmsg`, `leavemsg`, `log` and `invitegen` returns the success response
and writes the zero value to exactly the fields of that sub-structure
(`joinmsg`: `UserJoinMessage`, `UserJoinMessageChannel`; `leavemsg`:
`UserLeaveMessage`, `UserLeaveMessageChannel`; `log`: `LoggingChannel`,
`LoggingEnabled` and every flag of `LoggingEvents`; `invitegen`:
`APIInviteChannel`, `APIInviteKey`), every other field of the record and
every other record keeping its value. Every `X` other than these four and
`filter` returns the error naming `X` and leaves the stores as they were. -/
theorem reset_field_local (h : Host) (env : CommandEnvironment) (st : Stores)
    (g : GuildSettings) (hg : st.guildSettings env.GuildID = some g) :
    commandSettingsServer h ["reset", "joinmsg"] env st
      = .ok (NewGenericEmbed "Server Settings - Reset"
               "Successfully reset the settings for \x60\x60joinmsg\x60\x60.",
             setGuild st env.GuildID
               { g with UserJoinMessage := "", UserJoinMessageChannel := "" }) ∧
    commandSettingsServer h ["reset", "leavemsg"] env st
      = .ok (NewGenericEmbed "Server Settings - Reset"
               "Successfully reset the settings for \x60\x60leavemsg\x60\x60.",
             setGuild st env.GuildID
               { g with UserLeaveMessage := "", UserLeaveMessageChannel := "" }) ∧
    commandSettingsServer h ["reset", "log"] env st
      = .ok (NewGenericEmbed "Server Settings - Reset"
               "Successfully reset the settings for \x60\x60log\x60\x60.",
             setGuild st env.GuildID
               { g with LogSettings :=
                  { LoggingEnabled := false, LoggingChannel := "",
                    LoggingEvents := LogEvents.zero } }) ∧
    commandSettingsServer h ["reset", "invitegen"] env st
      = .ok (NewGenericEmbed "Server Settings - Reset"
               "Successfully reset the settings for \x60\x60invitegen\x60\x60.",
             setGuild st env.GuildID { g with APIInviteChannel := "", APIInviteKey := "" }) ∧
    (∀ X : String, X ∉ ["joinmsg", "leavemsg", "log", "filter", "invitegen"] →
      commandSettingsServer h ["reset", X] env st
        = .ok (NewErrorEmbed "Server Settings - Reset Error"
                 ("Error finding the setting \x60\x60" ++ X ++ "\x60\x60."), st)) ∧
    (∀ g1 : GuildSettings,
      (setGuild st env.GuildID g1).userSettings = st.userSettings
      ∧ ∀ k, k ≠ env.GuildID → (setGuild st env.GuildID g1).guildSettings k = st.guildSettings k) := by
  refine ⟨?_, ?_, ?_, ?_, ?_, ?_⟩
  · simp [commandSettingsServer, serverReset, index, guildAt, hg, ok_bind, pure_eq_ok]
  · simp [commandSettingsServer, serverReset, index, guildAt, hg, ok_bind, pure_eq_ok]
  · simp [commandSettingsServer, serverReset, index, guildAt, hg, ok_bind, pure_eq_ok]
  · simp [commandSettingsServer, serverReset, index, guildAt, hg, ok_bind, pure_eq_ok]
  · intro X hX
    simp at hX
    simp [commandSettingsServer, serverReset, index, ok_bind, pure_eq_ok, hX]
  · intro g1
    refine ⟨rfl, ?_⟩
    intro k hk
    simp [setGuild, hk]

/-- C15, amended, at `server reset log` on the sample guild with logging on. -/
theorem reset_field_local_witness :
    demoStoresLogging.guildSettings demoEnv.GuildID = some demoGuildLogging ∧
    commandSettingsServer demoHost ["reset", "log"] demoEnv demoStoresLogging
      = .ok (NewGenericEmbed "Server Settings - Reset"
               "Successfully reset the settings for \x60\x60log\x60\x60.",
             setGuild demoStoresLogging demoEnv.GuildID
               { demoGuildLogging with LogSettings :=
                  { LoggingEnabled := false, LoggingChannel := "",
                    LoggingEvents := LogEvents.zero } }) :=
  ⟨by decide,
    (reset_field_local demoHost demoEnv demoStoresLogging demoGuildLogging (by decide)).2.2.1⟩

theorem setGuild_setGuild (st : Stores) (id : String) (a b : GuildSettings) :
    setGuild (setGuild st id a) id b = setGuild st id b := by
  simp only [setGuild, Stores.mk.injEq, and_true]
  funext k
  by_cases hk : k = id <;> simp [hk]

/-- The outcome of `server joinmsg` on a provisioned record. -/
theorem joinmsg_run (h : Host) (env : CommandEnvironment) (st : Stores) (g : GuildSettings)
    (tail : List String) (hg : st.guildSettings env.GuildID = some g) :
    commandSettingsServer h ("joinmsg" :: tail) env st
      = .ok (NewGenericEmbed "Server Settings - Join Message"
               "Successfully set the join message to this channel.",
             setGuild st env.GuildID
               { g with UserJoinMessage := " ".intercalate tail,
                        UserJoinMessageChannel := env.ChannelID }) := by
  simp [commandSettingsServer, index, guildAt, hg, ok_bind, pure_eq_ok, Join]

/-- The outcome of `server leavemsg` on a provisioned record. -/
theorem leavemsg_run (h : Host) (env : CommandEnvironment) (st : Stores) (g : GuildSettings)
    (tail : List String) (hg : st.guildSettings env.GuildID = some g) :
    commandSettingsServer h ("leavemsg" :: tail) env st
      = .ok (NewGenericEmbed "Server Settings - Leave Message"
               "Successfully set the leave message to this channel.",
             setGuild st env.GuildID
               { g with UserLeaveMessage := " ".intercalate tail,
                        UserLeaveMessageChannel := env.ChannelID }) := by
  simp [commandSettingsServer, index, guildAt, hg, ok_bind, pure_eq_ok, Join]

/-- C16. On a provisioned record and for every token tail, `server joinmsg`
sets `UserJoinMessage` to the tokens joined by single spaces and
`UserJoinMessageChannel` to the origin channel id and changes no other field;
`server leavemsg` does the same to the two leave-message fields. A joinmsg
command and a leavemsg command for the same community, each with its own
tail and origin channel, leave the same stores in either order. -/
theorem joinmsg_leavemsg_store (h : Host) (envJ envL : CommandEnvironment) (st : Stores)
    (g : GuildSettings) (tj tl : List String)
    (hg : st.guildSettings envJ.GuildID = some g) (hid : envL.GuildID = envJ.GuildID) :
    commandSettingsServer h ("joinmsg" :: tj) envJ st
      = .ok (NewGenericEmbed "Server Settings - Join Message"
               "Successfully set the join message to this channel.",
             setGuild st envJ.GuildID
               { g with UserJoinMessage := " ".intercalate tj,
                        UserJoinMessageChannel := envJ.ChannelID }) ∧
    commandSettingsServer h ("leavemsg" :: tl) envL st
      = .ok (NewGenericEmbed "Server Settings - Leave Message"
               "Successfully set the leave message to this channel.",
             setGuild st envJ.GuildID
               { g with UserLeaveMessage := " ".intercalate tl,
                        UserLeaveMessageChannel := envL.ChannelID }) ∧
    (∃ r1 s1 r2 r3 s3 r4 final,
      commandSettingsServer h ("joinmsg" :: tj) envJ st = .ok (r1, s1)
      ∧ commandSettingsServer h ("leavemsg" :: tl) envL s1 = .ok (r2, final)
      ∧ commandSettingsServer h ("leavemsg" :: tl) envL st = .ok (r3, s3)
      ∧ commandSettingsServer h ("joinmsg" :: tj) envJ s3 = .ok (r4, final)
      ∧ final = setGuild st envJ.GuildID
          { g with UserJoinMessage := " ".intercalate tj,
                   UserJoinMessageChannel := envJ.ChannelID,
                   UserLeaveMessage := " ".intercalate tl,
                   UserLeaveMessageChannel := envL.ChannelID }) := by
  have hgL : st.guildSettings envL.GuildID = some g := by rw [hid]; exact hg
  have hJ := joinmsg_run h envJ st g tj hg
  have hL := leavemsg_run h envL st g tl hgL
  rw [hid] at hL
  have h2 : commandSettingsServer h ("leavemsg" :: tl) envL
        (setGuild st envJ.GuildID
          { g with UserJoinMessage := " ".intercalate tj,
                   UserJoinMessageChannel := envJ.ChannelID })
      = .ok (NewGenericEmbed "Server Settings - Leave Message"
               "Successfully set the leave message to this channel.",
             setGuild st envJ.GuildID
               { g with UserJoinMessage := " ".intercalate tj,
                        UserJoinMessageChannel := envJ.ChannelID,
                        UserLeaveMessage := " ".intercalate tl,
                        UserLeaveMessageChannel := envL.ChannelID }) := by
    have := leavemsg_run h envL
      (setGuild st envJ.GuildID
        { g with UserJoinMessage := " ".intercalate tj,
                 UserJoinMessageChannel := envJ.ChannelID })
      { g with UserJoinMessage := " ".intercalate tj,
               UserJoinMessageChannel := envJ.ChannelID } tl
      (by rw [hid]; exact setGuild_same _ _ _)
    rw [this, hid, setGuild_setGuild]
  have h4 : commandSettingsServer h ("joinmsg" :: tj) envJ
        (setGuild st envJ.GuildID
          { g with UserLeaveMessage := " ".intercalate tl,
                   UserLeaveMessageChannel := envL.ChannelID })
      = .ok (NewGenericEmbed "Server Settings - Join Message"
               "Successfully set the join message to this channel.",
             setGuild st envJ.GuildID
               { g with UserJoinMessage := " ".intercalate tj,
                        UserJoinMessageChannel := envJ.ChannelID,
                        UserLeaveMessage := " ".intercalate tl,
                        UserLeaveMessageChannel := envL.ChannelID }) := by
    have := joinmsg_run h envJ
      (setGuild st envJ.GuildID
        { g with UserLeaveMessage := " ".intercalate tl,
                 UserLeaveMessageChannel := envL.ChannelID })
      { g with UserLeaveMessage := " ".intercalate tl,
               UserLeaveMessageChannel := envL.ChannelID } tj
      (setGuild_same _ _ _)
    rw [this, setGuild_setGuild]
  exact ⟨hJ, hL, _, _, _, _, _, _, _, hJ, h2, hL, h4, rfl⟩

/-- C16 at the sample guild: a join message set from channel `c` and a leave
message set from channel `d`. -/
theorem joinmsg_leavemsg_store_witness :
    demoStores.guildSettings demoEnv.GuildID = some demoGuild ∧
    commandSettingsServer demoHost ["joinmsg", "hello", "there"] demoEnv demoStores
      = .ok (NewGenericEmbed "Server Settings - Join Message"
               "Successfully set the join message to this channel.",
             setGuild demoStores demoEnv.GuildID
               { demoGuild with UserJoinMessage := " ".intercalate ["hello", "there"],
                                UserJoinMessageChannel := demoEnv.ChannelID }) :=
  ⟨by decide,
    (joinmsg_leavemsg_store demoHost demoEnv { demoEnv with ChannelID := "d" } demoStores
      demoGuild ["hello", "there"] ["bye"] (by decide) rfl).1⟩

/-! ## What the log help promises -/

/-- C17. On a record whose `LoggingChannel` is empty, `server log enable`
followed by no event names or by event names (any list other than the single
tokens `all` and `recommended`) answers "Successfully enabled logging and set
the logging channel to this channel." and sets `LoggingEnabled`, but leaves
`LoggingChannel` empty: the channel is never written on this path. The
sibling path `server log enable all` does write the origin channel. -/
theorem log_enable_names_channel_not_set (h : Host) (env : CommandEnvironment) (st : Stores)
    (g : GuildSettings) (names : List String)
    (hg : st.guildSettings env.GuildID = some g)
    (hc : g.LogSettings.LoggingChannel = "")
    (hall : names ≠ ["all"]) (hrec : names ≠ ["recommended"]) :
    commandSettingsServer h ("log" :: "enable" :: names) env st
      = .ok (NewGenericEmbed "Server Settings - Log"
               (("Successfully enabled logging"
                   ++ " and set the logging channel to this channel.")
                 ++ (if names = [] then "" else "\n" ++ eventReport "Enabled" names)),
             setGuild st env.GuildID
               { g with LogSettings :=
                  { LoggingEnabled := true, LoggingChannel := "",
                    LoggingEvents :=
                      (eventLoop true names g.LogSettings.LoggingEvents).events } }) ∧
    (∃ resp g1,
      commandSettingsServer h ["log", "enable", "all"] env st
        = .ok (resp, setGuild st env.GuildID g1)
      ∧ g1.LogSettings.LoggingChannel = env.ChannelID) := by
  constructor
  · have hrun : commandSettingsServer h ("log" :: "enable" :: names) env st
        = serverLogEnable ("log" :: "enable" :: names) env st g := by
      simp [commandSettingsServer, serverLog, index, guildAt, hg, ok_bind]
    rw [hrun, serverLogEnable_names env st g names hall hrec, serverLogEnableNames_run]
    simp [hc]
  · refine ⟨_, _, log_enable_all_run h env st g hg, ?_⟩
    simp [hc]

/-- C17 at `server log enable` from channel `c` on the sample guild, whose
logging channel is empty: the response announces the channel, the record
does not hold it. -/
theorem log_enable_names_channel_not_set_witness :
    (demoStores.guildSettings demoEnv.GuildID = some demoGuild
      ∧ demoGuild.LogSettings.LoggingChannel = "" ∧ demoEnv.ChannelID = "c") ∧
    commandSettingsServer demoHost ["log", "enable"] demoEnv demoStores
      = .ok (NewGenericEmbed "Server Settings - Log"
               (("Successfully enabled logging"
                   ++ " and set the logging channel to this channel.")
                 ++ (if ([] : List String) = [] then "" else "\n" ++ eventReport "Enabled" [])),
             setGuild demoStores demoEnv.GuildID
               { demoGuild with LogSettings :=
                  { LoggingEnabled := true, LoggingChannel := "",
                    LoggingEvents :=
                      (eventLoop true [] demoGuild.LogSettings.LoggingEvents).events } }) :=
  ⟨⟨by decide, by decide, by decide⟩,
    (log_enable_names_channel_not_set demoHost demoEnv demoStores demoGuild []
      (by decide) (by decide) (by decide) (by decide)).1⟩

/-- C18. The log help lists `unset` ("Unsets the current logging channel and
disables logging"), but the switch on `args[1]` has no such case: on a
provisioned record `server log unset` returns the "Unknown log command"
error and leaves the stores, so `LoggingChannel` and `LoggingEnabled`, as
they were. -/
theorem log_unset_is_unknown (h : Host) (env : CommandEnvironment) (st : Stores)
    (g : GuildSettings) (hg : st.guildSettings env.GuildID = some g) :
    ({ Name := "unset",
       Description := "Unsets the current logging channel and disables logging",
       ArgType := "this" } : CommandArgument) ∈ logHelpCmd.Arguments ∧
    commandSettingsServer h ["log", "unset"] env st
      = .ok (NewErrorEmbed "Server Settings - Log Error"
               "Unknown log command \x60\x60unset\x60\x60.", st) := by
  constructor
  · decide
  · simp [commandSettingsServer, serverLog, index, guildAt, hg, ok_bind, pure_eq_ok]

/-- C18 on the sample guild with logging on and sent to channel `c0`. -/
theorem log_unset_is_unknown_witness :
    (demoStoresLogging.guildSettings demoEnv.GuildID = some demoGuildLogging
      ∧ demoGuildLogging.LogSettings.LoggingEnabled = true
      ∧ demoGuildLogging.LogSettings.LoggingChannel = "c0") ∧
    commandSettingsServer demoHost ["log", "unset"] demoEnv demoStoresLogging
      = .ok (NewErrorEmbed "Server Settings - Log Error"
               "Unknown log command \x60\x60unset\x60\x60.", demoStoresLogging) :=
  ⟨⟨by decide, by decide, by decide⟩,
    (log_unset_is_unknown demoHost demoEnv demoStoresLogging demoGuildLogging (by decide)).2⟩

/-- The outcome of `server filter words remove W` for a non-empty `W`. -/
theorem filter_words_remove_run (h : Host) (env : CommandEnvironment) (st : Stores)
    (g : GuildSettings) (W : List String)
    (hg : st.guildSettings env.GuildID = some g) (hW : W ≠ []) :
    commandSettingsServer h ("filter" :: "words" :: "remove" :: W) env st
      = .ok (NewGenericEmbed "Server Settings - Swear Filter"
               "Successfully removed the provided words from the filter.",
             setGuild st env.GuildID
               { g with SwearFilter :=
                  { g.SwearFilter with
                    BlacklistedWords := removeLoop h g.SwearFilter.BlacklistedWords } }) := by
  match W, hW with
  | w :: ws, _ =>
    have h2 : ¬ (ws.length + 1 + 1 + 1 + 1 < 2) := by omega
    have h3 : ¬ (ws.length + 1 + 1 + 1 + 1 < 3) := by omega
    have h4 : ¬ (ws.length + 1 + 1 + 1 + 1 < 4) := by omega
    simp [commandSettingsServer, serverFilter, serverFilterWords, index, guildAt, hg, ok_bind,
      pure_eq_ok, h2, h3, h4]

/-- C19. Whatever the helper `remove` does, the loop of
`server filter words remove W` ranges over the stored list and never reads
`W`: on the sample guild, whose list is `a, b`, every non-empty `W` leaves
the same list. So the requirement "no word of `W` is left and every stored
word outside `W` is kept" cannot hold both for `W = a` and for `W = b`. -/
theorem filter_words_remove_ignores_words (h : Host) :
    (∀ W : List String, W ≠ [] →
      commandSettingsServer h ("filter" :: "words" :: "remove" :: W) demoEnv demoStores
        = .ok (NewGenericEmbed "Server Settings - Swear Filter"
                 "Successfully removed the provided words from the filter.",
               setGuild demoStores demoEnv.GuildID
                 { demoGuild with SwearFilter :=
                    { demoGuild.SwearFilter with
                      BlacklistedWords := removeLoop h ["a", "b"] } })) ∧
    ¬ (∀ W : List String, W = ["a"] ∨ W = ["b"] →
        ∃ resp st1 g1,
          commandSettingsServer h ("filter" :: "words" :: "remove" :: W) demoEnv demoStores
            = .ok (resp, st1)
          ∧ st1.guildSettings demoEnv.GuildID = some g1
          ∧ (∀ w ∈ W, w ∉ g1.SwearFilter.BlacklistedWords)
          ∧ (∀ w ∈ ["a", "b"], w ∉ W → w ∈ g1.SwearFilter.BlacklistedWords)) := by
  have hg : demoStores.guildSettings demoEnv.GuildID = some demoGuild := by decide
  have hrun : ∀ W : List String, W ≠ [] →
      commandSettingsServer h ("filter" :: "words" :: "remove" :: W) demoEnv demoStores
        = .ok (NewGenericEmbed "Server Settings - Swear Filter"
                 "Successfully removed the provided words from the filter.",
               setGuild demoStores demoEnv.GuildID
                 { demoGuild with SwearFilter :=
                    { demoGuild.SwearFilter with
                      BlacklistedWords := removeLoop h ["a", "b"] } }) := by
    intro W hW
    exact filter_words_remove_run h demoEnv demoStores demoGuild W hg hW
  refine ⟨hrun, ?_⟩
  intro hclaim
  obtain ⟨ra, sa, ga, hra, hga, -, hkeep⟩ := hclaim ["a"] (Or.inl rfl)
  obtain ⟨rb, sb, gb, hrb, hgb, hgone, -⟩ := hclaim ["b"] (Or.inr rfl)
  rw [hrun ["a"] (by decide)] at hra
  rw [hrun ["b"] (by decide)] at hrb
  have hsa : sa = setGuild demoStores demoEnv.GuildID
      { demoGuild with SwearFilter :=
        { demoGuild.SwearFilter with BlacklistedWords := removeLoop h ["a", "b"] } } :=
    (congrArg Prod.snd (Except.ok.inj hra)).symm
  have hsb : sb = setGuild demoStores demoEnv.GuildID
      { demoGuild with SwearFilter :=
        { demoGuild.SwearFilter with BlacklistedWords := removeLoop h ["a", "b"] } } :=
    (congrArg Prod.snd (Except.ok.inj hrb)).symm
  rw [hsa, setGuild_same] at hga
  rw [hsb, setGuild_same] at hgb
  have hab : ga = gb := Option.some.inj (hga.symm.trans hgb)
  have h1 : "b" ∈ ga.SwearFilter.BlacklistedWords := hkeep "b" (by decide) (by decide)
  have h2 : "b" ∉ gb.SwearFilter.BlacklistedWords := hgone "b" (by decide)
  exact h2 (hab ▸ h1)

/-- C22. At the level `filter words` a token that is none of `add`, `remove`
and `clear` leaves the inner switch without a return and reaches the error
written for the level above: the body is "Unknown filter command" followed by
`words`, the same for every such token, so it does not name the offending
token (it does not name `bogus` for `server filter words bogus`); the stores
are left as they were. At the other nested levels the error names the token
and the stores are left as they were: `tips`, `autosendnowplaying`,
`invitegen`, `filter`, `reset`, `social`, `social clear`, `social set` once a
value follows the kind, and `log` on a provisioned record. -/
theorem filter_words_unknown_names_words (h : Host) (env : CommandEnvironment) (st : Stores)
    (tok : String) (tail : List String) :
    (tok ∉ ["add", "remove", "clear"] →
      commandSettingsServer h ("filter" :: "words" :: tok :: tail) env st
        = .ok (NewErrorEmbed "Server Settings - Swear Filter Error"
                 "Unknown filter command \x60\x60words\x60\x60.", st)) ∧
    (commandSettingsServer h ["filter", "words", "bogus"] env st
        = .ok (NewErrorEmbed "Server Settings - Swear Filter Error"
                 "Unknown filter command \x60\x60words\x60\x60.", st)
      ∧ bodyNames "Unknown filter command \x60\x60words\x60\x60." "bogus" = false) ∧
    (tok ∉ ["enable", "disable"] →
      commandSettingsServer h ("tips" :: tok :: tail) env st
        = .ok (NewErrorEmbed "Server Settings - Tips Error"
                 ("Unknown tips command \x60\x60" ++ tok ++ "\x60\x60."), st)) ∧
    (tok ∉ ["enable", "disable"] →
      commandSettingsServer h ("autosendnowplaying" :: tok :: tail) env st
        = .ok (NewErrorEmbed "Server Settings - Auto Send Now Playing Error"
                 ("Unknown ASNP command \x60\x60" ++ tok ++ "\x60\x60."), st)) ∧
    (tok ∉ ["setchannel", "key"] →
      commandSettingsServer h ("invitegen" :: tok :: tail) env st
        = .ok (NewErrorEmbed "Server Settings - API Invite Generation Error"
                 ("Unknown invitegen command \x60\x60" ++ tok ++ "\x60\x60."), st)) ∧
    (tok ∉ ["enable", "disable", "words", "timeout"] →
      commandSettingsServer h ("filter" :: tok :: tail) env st
        = .ok (NewErrorEmbed "Server Settings - Swear Filter Error"
                 ("Unknown filter command \x60\x60" ++ tok ++ "\x60\x60."), st)) ∧
    (tok ∉ ["set", "enable", "disable", "events"] →
      (∃ g, st.guildSettings env.GuildID = some g) →
      commandSettingsServer h ("log" :: tok :: tail) env st
        = .ok (NewErrorEmbed "Server Settings - Log Error"
                 ("Unknown log command \x60\x60" ++ tok ++ "\x60\x60."), st)) ∧
    (tok ∉ ["joinmsg", "leavemsg", "log", "filter", "invitegen"] →
      commandSettingsServer h ("reset" :: tok :: tail) env st
        = .ok (NewErrorEmbed "Server Settings - Reset Error"
                 ("Error finding the setting \x60\x60" ++ tok ++ "\x60\x60."), st)) ∧
    (tok ∉ ["set", "add", "list", "clear", "remove", "available", "types"] →
      ∀ a0, a0 ∈ ["social", "socials"] →
      commandSettingsUser h (a0 :: tok :: tail) env st
        = .ok (NewErrorEmbed "User Settings - Socials Error"
                 ("Unknown socials command \x60\x60" ++ tok ++ "\x60\x60."), st)) ∧
    (tok ∉ ["switchfc", "nintendoid", "nintyid", "nnid", "psn", "xbox", "gamertag"] →
      ∀ value, ∀ a1, a1 ∈ ["set", "add"] →
      commandSettingsUser h ("social" :: a1 :: tok :: value :: tail) env st
        = .ok (NewErrorEmbed "User Settings - Socials Error"
                 ("Unknown social " ++ tok ++ "\x60\x60."), st)) ∧
    (tok ∉ ["switchfc", "nintendoid", "nintyid", "nnid", "psn", "xbox"] →
      ∀ a1, a1 ∈ ["clear", "remove"] →
      commandSettingsUser h ("social" :: a1 :: tok :: tail) env st
        = .ok (NewErrorEmbed "User Settings - Socials Error"
                 ("Unknown social \x60\x60" ++ tok ++ "\x60\x60."), st)) := by
  have l2 : ¬ (tail.length + 1 + 1 ≤ 1) := by omega
  have l2' : ¬ (tail.length + 1 + 1 < 2) := by omega
  have l3 : ¬ (tail.length + 1 + 1 + 1 < 2) := by omega
  have l3' : ¬ (tail.length + 1 + 1 + 1 < 3) := by omega
  have l4 : ¬ (tail.length + 1 + 1 + 1 + 1 < 2) := by omega
  have l4' : ¬ (tail.length + 1 + 1 + 1 + 1 < 4) := by omega
  have hwords : ∀ (t : String) (ts : List String), t ∉ ["add", "remove", "clear"] →
      commandSettingsServer h ("filter" :: "words" :: t :: ts) env st
        = .ok (NewErrorEmbed "Server Settings - Swear Filter Error"
                 "Unknown filter command \x60\x60words\x60\x60.", st) := by
    intro t ts ht
    have m3 : ¬ (ts.length + 1 + 1 + 1 < 2) := by omega
    have m3' : ¬ (ts.length + 1 + 1 + 1 < 3) := by omega
    simp at ht
    simp [commandSettingsServer, serverFilter, serverFilterWords, unknownFilterCommand, index,
      ok_bind, pure_eq_ok, ht, m3, m3']
  refine ⟨hwords tok tail, ⟨hwords "bogus" [] (by decide), by decide⟩,
    ?_, ?_, ?_, ?_, ?_, ?_, ?_, ?_, ?_⟩
  · intro ht
    simp at ht
    simp [commandSettingsServer, serverTips, index, ok_bind, pure_eq_ok, ht, l2]
  · intro ht
    simp at ht
    simp [commandSettingsServer, serverAutoSendNowPlaying, index, ok_bind, pure_eq_ok, ht]
  · intro ht
    simp at ht
    simp [commandSettingsServer, serverInvitegen, index, ok_bind, pure_eq_ok, ht, l2']
  · intro ht
    simp at ht
    simp [commandSettingsServer, serverFilter, unknownFilterCommand, index, ok_bind, pure_eq_ok,
      ht, l2']
  · intro ht hg
    obtain ⟨g, hg⟩ := hg
    simp at ht
    simp [commandSettingsServer, serverLog, index, guildAt, hg, ok_bind, pure_eq_ok, ht, l2']
  · intro ht
    simp at ht
    simp [commandSettingsServer, serverReset, index, ok_bind, pure_eq_ok, ht, l2']
  · intro ht a0 ha0
    simp at ht
    simp only [List.mem_cons, List.mem_singleton, List.not_mem_nil, or_false] at ha0
    rcases ha0 with ha0 | ha0 <;> subst ha0 <;>
      simp [commandSettingsUser, userSocial, index, ok_bind, pure_eq_ok, ht, l2']
  · intro ht value a1 ha1
    simp at ht
    simp only [List.mem_cons, List.mem_singleton, List.not_mem_nil, or_false] at ha1
    rcases ha1 with ha1 | ha1 <;> subst ha1 <;>
      simp [commandSettingsUser, userSocial, userSocialSet, index, ok_bind, pure_eq_ok, ht,
        l4, l4']
  · intro ht a1 ha1
    simp at ht
    simp only [List.mem_cons, List.mem_singleton, List.not_mem_nil, or_false] at ha1
    rcases ha1 with ha1 | ha1 <;> subst ha1 <;>
      simp [commandSettingsUser, userSocial, userSocialClear, index, ok_bind, pure_eq_ok, ht,
        l3, l3']

/-! ## Filter words, clearing socials, untouched flags and the round trip -/

/-- C23. On a provisioned record whose blacklisted-word list is `L`, and for
every non-empty token list `W`, `server filter words add W` returns the
success response and stores exactly `L` followed by `W`; with no word given
the error response is returned and the stores are left as they were. -/
theorem filter_words_add_appends (h : Host) (env : CommandEnvironment) (st : Stores)
    (g : GuildSettings) (W : List String)
    (hg : st.guildSettings env.GuildID = some g) :
    (W ≠ [] →
      commandSettingsServer h ("filter" :: "words" :: "add" :: W) env st
        = .ok (NewGenericEmbed "Server Settings - Swear Filter"
                 "Successfully added the provided words to the filter.",
               setGuild st env.GuildID
                 { g with SwearFilter :=
                    { g.SwearFilter with
                      BlacklistedWords := g.SwearFilter.BlacklistedWords ++ W } })) ∧
    commandSettingsServer h ["filter", "words", "add"] env st
      = .ok (NewErrorEmbed "Server Settings - Swear Filter Error"
               "You must specify one or more words to add to the filter.", st) := by
  constructor
  · intro hW
    match W, hW with
    | w :: ws, _ =>
      have h2 : ¬ (ws.length + 1 + 1 + 1 + 1 < 2) := by omega
      have h3 : ¬ (ws.length + 1 + 1 + 1 + 1 < 3) := by omega
      have h4 : ¬ (ws.length + 1 + 1 + 1 + 1 < 4) := by omega
      simp [commandSettingsServer, serverFilter, serverFilterWords, index, guildAt, hg,
        ok_bind, pure_eq_ok, h2, h3, h4]
  · simp [commandSettingsServer, serverFilter, serverFilterWords, index, ok_bind, pure_eq_ok]

/-- C23 at the sample guild, whose list is `a, b`: adding `b, c, b` keeps the
order and the duplicates. -/
theorem filter_words_add_appends_witness :
    demoStores.guildSettings demoEnv.GuildID = some demoGuild ∧
    commandSettingsServer demoHost ["filter", "words", "add", "b", "c", "b"] demoEnv demoStores
      = .ok (NewGenericEmbed "Server Settings - Swear Filter"
               "Successfully added the provided words to the filter.",
             setGuild demoStores demoEnv.GuildID
               { demoGuild with SwearFilter :=
                  { demoGuild.SwearFilter with
                    BlacklistedWords :=
                      demoGuild.SwearFilter.BlacklistedWords ++ ["b", "c", "b"] } }) ∧
    demoGuild.SwearFilter.BlacklistedWords ++ ["b", "c", "b"] = ["a", "b", "b", "c", "b"] :=
  ⟨by decide,
    (filter_words_add_appends demoHost demoEnv demoStores demoGuild ["b", "c", "b"]
      (by decide)).1 (by decide),
    by decide⟩

/-- C24. `user social set` accepts the kind `gamertag`, `user social clear`
has no such case: on a provisioned user record `user social clear gamertag`
returns the "Unknown social" error and leaves the stores, so the stored Xbox
gamertag, as they were. The six other kind selectors are cleared as claimed:
a non-empty field becomes the empty string with a success response and the
three other socials keep their values; an empty field gives an error and no
change. -/
theorem social_clear_gamertag_unknown (h : Host) (env : CommandEnvironment) (st : Stores)
    (u : UserSettings) (hu : st.userSettings env.UserID = some u) :
    commandSettingsUser h ["social", "clear", "gamertag"] env st
      = .ok (NewErrorEmbed "User Settings - Socials Error"
               "Unknown social \x60\x60gamertag\x60\x60.", st) ∧
    (∀ v, u.Socials.Xbox ≠ v →
      commandSettingsUser h ["social", "set", "gamertag", v] env st
        = .ok (NewGenericEmbed "User Settings - Socials"
                 ("Successfully set your Xbox Live gamertag to \x60\x60" ++ v ++ "\x60\x60."),
               setUser st env.UserID { u with Socials := { u.Socials with Xbox := v } })) ∧
    commandSettingsUser h ["social", "clear", "switchfc"] env st
      = (if u.Socials.SwitchFC = "" then
           .ok (NewErrorEmbed "User Settings - Socials"
                  "You don\x27t have a Switch friend code set.", st)
         else
           .ok (NewGenericEmbed "User Settings - Socials" "Cleared your Switch friend code.",
                setUser st env.UserID
                  { u with Socials := { u.Socials with SwitchFC := "" } })) ∧
    (∀ k, k ∈ ["nintendoid", "nintyid", "nnid"] →
      commandSettingsUser h ["social", "clear", k] env st
        = (if u.Socials.NNID = "" then
             .ok (NewErrorEmbed "User Settings - Socials" "You don\x27t have an NNID set.", st)
           else
             .ok (NewGenericEmbed "User Settings - Socials" "Cleared your NNID.",
                  setUser st env.UserID { u with Socials := { u.Socials with NNID := "" } }))) ∧
    commandSettingsUser h ["social", "clear", "psn"] env st
      = (if u.Socials.PSN = "" then
           .ok (NewErrorEmbed "User Settings - Socials" "You don\x27t have a PSN set.", st)
         else
           .ok (NewGenericEmbed "User Settings - Socials" "Cleared your PSN.",
                setUser st env.UserID { u with Socials := { u.Socials with PSN := "" } })) ∧
    commandSettingsUser h ["social", "clear", "xbox"] env st
      = (if u.Socials.Xbox = "" then
           .ok (NewErrorEmbed "User Settings - Socials"
                  "You don\x27t have an Xbox Live gamertag set.", st)
         else
           .ok (NewGenericEmbed "User Settings - Socials" "Cleared your Xbox Live gamertag.",
                setUser st env.UserID { u with Socials := { u.Socials with Xbox := "" } })) := by
  refine ⟨?_, ?_, ?_, ?_, ?_, ?_⟩
  · simp [commandSettingsUser, userSocial, userSocialClear, index, ok_bind, pure_eq_ok]
  · intro v hne
    simp [commandSettingsUser, userSocial, userSocialSet, index, userAt, hu, hne, ok_bind,
      pure_eq_ok]
  · by_cases hv : u.Socials.SwitchFC = "" <;>
      simp [commandSettingsUser, userSocial, userSocialClear, index, userAt, hu, hv, ok_bind,
        pure_eq_ok]
  · intro k hk
    simp only [List.mem_cons, List.mem_singleton, List.not_mem_nil, or_false] at hk
    rcases hk with hk | hk | hk <;> subst hk <;>
      by_cases hv : u.Socials.NNID = "" <;>
      simp [commandSettingsUser, userSocial, userSocialClear, index, userAt, hu, hv, ok_bind,
        pure_eq_ok]
  · by_cases hv : u.Socials.PSN = "" <;>
      simp [commandSettingsUser, userSocial, userSocialClear, index, userAt, hu, hv, ok_bind,
        pure_eq_ok]
  · by_cases hv : u.Socials.Xbox = "" <;>
      simp [commandSettingsUser, userSocial, userSocialClear, index, userAt, hu, hv, ok_bind,
        pure_eq_ok]

/-- C24 at the sample user, whose Xbox gamertag is `x`: `clear gamertag` is
an error and leaves the stores as they were. -/
theorem social_clear_gamertag_unknown_witness :
    (demoStores.userSettings demoEnv.UserID = some demoUser ∧ demoUser.Socials.Xbox = "x") ∧
    commandSettingsUser demoHost ["social", "clear", "gamertag"] demoEnv demoStores
      = .ok (NewErrorEmbed "User Settings - Socials Error"
               "Unknown social \x60\x60gamertag\x60\x60.", demoStores) :=
  ⟨⟨by decide, by decide⟩,
    (social_clear_gamertag_unknown demoHost demoEnv demoStores demoUser (by decide)).1⟩
theorem logEvents_ext (a b : LogEvents) (hv : ∀ f : EventField, f.Value a = f.Value b) :
    a = b := by
  cases a
  cases b
  simp only [LogEvents.mk.injEq]
  exact ⟨hv .ChannelCreate, hv .ChannelDelete, hv .ChannelUpdate, hv .GuildBanAdd,
    hv .GuildBanRemove, hv .GuildEmojisUpdate, hv .GuildMemberAdd, hv .GuildMemberRemove,
    hv .GuildRoleCreate, hv .GuildRoleDelete, hv .GuildRoleUpdate, hv .GuildUpdate,
    hv .UserUpdate, hv .VoiceStateUpdate, hv .SwearDetect, hv .UserModlog⟩

/-- The loop over event names leaves every flag whose name is not in the
list at its value, and leaves the whole flag set as it was when no name of
the list is recognized. -/
theorem eventLoop_frame (v : Bool) (names : List String) (e : LogEvents) :
    (∀ f : EventField, f.Name ∉ names → f.Value (eventLoop v names e).events = f.Value e)
    ∧ ((∀ t ∈ names, t ∉ eventNames) → (eventLoop v names e).events = e) := by
  have hspec := (eventLoop_spec v names e).2.2
  have hframe : ∀ f : EventField, f.Name ∉ names →
      f.Value (eventLoop v names e).events = f.Value e := by
    intro f hf
    rw [hspec f, if_neg hf]
  refine ⟨hframe, ?_⟩
  intro hnone
  apply logEvents_ext
  intro f
  exact hframe f (fun hmem => hnone _ hmem (name_mem_eventNames f))

/-- C25. On a provisioned record, for every list of event-name tokens given
to `server log enable` (other than the single tokens `all` and
`recommended`) or to `server log disable` (other than the single token
`all`): every `LogEvents` flag whose name does not occur in the list has the
same value after the command as before, and a list in which no token is one
of the sixteen field names leaves the whole flag set as it was. -/
theorem log_names_untouched (h : Host) (env : CommandEnvironment) (st : Stores)
    (g : GuildSettings) (names : List String)
    (hg : st.guildSettings env.GuildID = some g) :
    (names ≠ ["all"] → names ≠ ["recommended"] →
      ∃ resp g1,
        commandSettingsServer h ("log" :: "enable" :: names) env st
          = .ok (resp, setGuild st env.GuildID g1)
        ∧ (∀ f : EventField, f.Name ∉ names →
            f.Value g1.LogSettings.LoggingEvents = f.Value g.LogSettings.LoggingEvents)
        ∧ ((∀ t ∈ names, t ∉ eventNames) →
            g1.LogSettings.LoggingEvents = g.LogSettings.LoggingEvents)) ∧
    (names ≠ ["all"] →
      ∃ resp g1,
        commandSettingsServer h ("log" :: "disable" :: names) env st
          = .ok (resp, setGuild st env.GuildID g1)
        ∧ (∀ f : EventField, f.Name ∉ names →
            f.Value g1.LogSettings.LoggingEvents = f.Value g.LogSettings.LoggingEvents)
        ∧ ((∀ t ∈ names, t ∉ eventNames) →
            g1.LogSettings.LoggingEvents = g.LogSettings.LoggingEvents)) := by
  constructor
  · intro hall hrec
    have hrun : commandSettingsServer h ("log" :: "enable" :: names) env st
        = serverLogEnable ("log" :: "enable" :: names) env st g := by
      simp [commandSettingsServer, serverLog, index, guildAt, hg, ok_bind]
    rw [hrun, serverLogEnable_names env st g names hall hrec, serverLogEnableNames_run]
    exact ⟨_, _, rfl, (eventLoop_frame true names g.LogSettings.LoggingEvents).1,
      (eventLoop_frame true names g.LogSettings.LoggingEvents).2⟩
  · intro hall
    match names, hall with
    | [], _ =>
      have hrun : commandSettingsServer h ["log", "disable"] env st
          = .ok (NewGenericEmbed "Server Settings - Log" "Successfully disabled logging.",
              setGuild st env.GuildID
                { g with LogSettings := { g.LogSettings with LoggingEnabled := false } }) := by
        simp [commandSettingsServer, serverLog, serverLogDisable, index, guildAt, hg, ok_bind,
          pure_eq_ok]
      exact ⟨_, _, hrun, fun _ _ => rfl, fun _ => rfl⟩
    | t :: ts, hall =>
      have hrun : commandSettingsServer h ("log" :: "disable" :: t :: ts) env st
          = serverLogDisable ("log" :: "disable" :: t :: ts) env st g := by
        simp [commandSettingsServer, serverLog, index, guildAt, hg, ok_bind]
      rw [hrun, serverLogDisable_run env st g t ts hall]
      exact ⟨_, _, rfl, (eventLoop_frame false (t :: ts) g.LogSettings.LoggingEvents).1,
        (eventLoop_frame false (t :: ts) g.LogSettings.LoggingEvents).2⟩

/-- C25 at the sample guild: enabling two names nobody knows leaves the flag
set as it was. -/
theorem log_names_untouched_witness :
    demoStores.guildSettings demoEnv.GuildID = some demoGuild ∧
    ∃ resp g1,
      commandSettingsServer demoHost ["log", "enable", "channelupdate", "Nope"] demoEnv
          demoStores
        = .ok (resp, setGuild demoStores demoEnv.GuildID g1)
      ∧ (∀ f : EventField, f.Name ∉ ["channelupdate", "Nope"] →
          f.Value g1.LogSettings.LoggingEvents = f.Value demoGuild.LogSettings.LoggingEvents)
      ∧ ((∀ t ∈ ["channelupdate", "Nope"], t ∉ eventNames) →
          g1.LogSettings.LoggingEvents = demoGuild.LogSettings.LoggingEvents) :=
  ⟨by decide,
    (log_names_untouched demoHost demoEnv demoStores demoGuild ["channelupdate", "Nope"]
      (by decide)).1 (by decide) (by decide)⟩

/-- C26. For every non-empty token `p`, every global default and every
provisioned community record, `bot prefix p` returns a success response and
the following `bot prefix` query reports `p` as the current command prefix,
whether or not `p` equals the global default. -/
theorem prefix_round_trip (h : Host) (env : CommandEnvironment) (st : Stores)
    (g : GuildSettings) (p : String)
    (hg : st.guildSettings env.GuildID = some g) (hp : p ≠ "") :
    ∃ resp st1,
      commandSettingsBot h ["prefix", p] env st = .ok (resp, st1)
      ∧ resp.isError = false
      ∧ commandSettingsBot h ["prefix"] env st1
          = .ok (NewGenericEmbed "Bot Settings - Command Prefix"
                   ("Current command prefix:\n\n" ++ p), st1) := by
  by_cases hd : p = h.CommandPrefix
  · refine ⟨NewGenericEmbed "Bot Settings - Command Prefix"
        ("Successfully set the command prefix to \x60\x60" ++ escapeBackticks p ++ "\x60\x60."),
      setGuild st env.GuildID { g with BotPrefix := "" }, ?_, rfl, ?_⟩
    · simp [commandSettingsBot, index, guildAt, hg, hd, ok_bind, pure_eq_ok]
    · simp [commandSettingsBot, index, guildAt, setGuild, hd, ok_bind, pure_eq_ok]
  · refine ⟨NewGenericEmbed "Bot Settings - Command Prefix"
        ("Successfully set the command prefix to \x60\x60" ++ escapeBackticks p ++ "\x60\x60."),
      setGuild st env.GuildID { g with BotPrefix := p }, ?_, rfl, ?_⟩
    · simp [commandSettingsBot, index, guildAt, hg, hd, ok_bind, pure_eq_ok]
    · simp [commandSettingsBot, index, guildAt, setGuild, hp, ok_bind, pure_eq_ok]

/-- C26 at the sample guild, once with a new override `?` and once with the
global default `cli$`. -/
theorem prefix_round_trip_witness :
    demoStores.guildSettings demoEnv.GuildID = some demoGuild ∧
    (∃ resp st1,
      commandSettingsBot demoHost ["prefix", "?"] demoEnv demoStores = .ok (resp, st1)
      ∧ resp.isError = false
      ∧ commandSettingsBot demoHost ["prefix"] demoEnv st1
          = .ok (NewGenericEmbed "Bot Settings - Command Prefix"
                   ("Current command prefix:\n\n" ++ "?"), st1)) ∧
    (∃ resp st1,
      commandSettingsBot demoHost ["prefix", "cli$"] demoEnv demoStores = .ok (resp, st1)
      ∧ resp.isError = false
      ∧ commandSettingsBot demoHost ["prefix"] demoEnv st1
          = .ok (NewGenericEmbed "Bot Settings - Command Prefix"
                   ("Current command prefix:\n\n" ++ "cli$"), st1)) :=
  ⟨by decide,
    prefix_round_trip demoHost demoEnv demoStores demoGuild "?" (by decide) (by decide),
    prefix_round_trip demoHost demoEnv demoStores demoGuild "cli$" (by decide) (by decide)⟩

/-! ## Stored friend codes -/

end Clinet
